import Mathlib

/-!
Verification of the peg-solitaire board builder (`src/solitaire.py`).

The Python source places cells at exact sympy coordinates, derives adjacency
by an exact unit-distance test, annotates each edge with a direction angle
`(deg(atan2(dy, dx)) + 360) % 180`, and composes adjacency with
angle-matching into a per-cell jump-pair index.

All coordinates produced by the three templates lie in the ring Q[sqrt 3]
(rationals plus rational multiples of the square root of three): the only
irrational constants in the source are sin(60 deg) = sqrt(3)/2 and
cos(60 deg) = 1/2.  We embed coordinates as pairs `(a, b)` standing for
`a + b * sqrt 3`; since sqrt 3 is irrational this representation is unique,
so structural equality of pairs is exactly sympy's exact equality of the
corresponding expressions.  Rationals are carried as always-normalized
numerator/denominator pairs (`Q` below), mirroring sympy's exact rational
arithmetic, so that structural equality again coincides with value
equality.
-/

/-- An exact rational number: integer numerator and positive integer
denominator, kept reduced (models a sympy `Rational`).  Every value built
by the operations below is normalized, so structural equality coincides
with equality of rational values. -/
structure Q where
  num : Int
  den : Int
  deriving DecidableEq, Repr

/-- Build a normalized rational `n / d` (for `d ≠ 0`): the sign moves to
the numerator and the pair is divided by its gcd.  The `d = 1` and
`g = 1` branches are fast paths producing the same value as the general
branch; they only spare the kernel the trivial divisions. -/
def Q.mk' (n d : Int) : Q :=
  if d = 1 then ⟨n, 1⟩
  else
    let n := if d < 0 then -n else n
    let d := if d < 0 then -d else d
    let g : Int := Int.ofNat (n.gcd d)
    if g = 0 then ⟨0, 1⟩
    else if g = 1 then ⟨n, d⟩
    else ⟨n / g, d / g⟩

instance (n : Nat) : OfNat Q n := ⟨⟨n, 1⟩⟩
instance : Add Q := ⟨fun a b => Q.mk' (a.num * b.den + b.num * a.den) (a.den * b.den)⟩
instance : Neg Q := ⟨fun a => ⟨-a.num, a.den⟩⟩
instance : Sub Q := ⟨fun a b => a + -b⟩
instance : Mul Q := ⟨fun a b => Q.mk' (a.num * b.num) (a.den * b.den)⟩
instance : Div Q := ⟨fun a b => Q.mk' (a.num * b.den) (a.den * b.num)⟩
instance : LT Q := ⟨fun a b => a.num * b.den < b.num * a.den⟩
instance : LE Q := ⟨fun a b => a.num * b.den ≤ b.num * a.den⟩

instance (a b : Q) : Decidable (a < b) :=
  inferInstanceAs (Decidable (a.num * b.den < b.num * a.den))

instance (a b : Q) : Decidable (a ≤ b) :=
  inferInstanceAs (Decidable (a.num * b.den ≤ b.num * a.den))

/-- Floor of a rational (the denominator is positive by construction). -/
def Q.floor (a : Q) : Int := a.num.fdiv a.den

/-- An element `a + b * sqrt 3` of the ring Q[sqrt 3], the exact coordinate
domain of every template in the source. -/
structure K where
  a : Q
  b : Q
  deriving DecidableEq, Repr

instance : Add K := ⟨fun p q => ⟨p.a + q.a, p.b + q.b⟩⟩
instance : Neg K := ⟨fun p => ⟨-p.a, -p.b⟩⟩
instance : Sub K := ⟨fun p q => ⟨p.a - q.a, p.b - q.b⟩⟩
instance : Mul K := ⟨fun p q => ⟨p.a * q.a + 3 * p.b * q.b, p.a * q.b + p.b * q.a⟩⟩
instance (n : Nat) : OfNat K n := ⟨⟨⟨n, 1⟩, 0⟩⟩

/-- The rational `n` as an element of Q[sqrt 3]. -/
def natK (n : Nat) : K := ⟨⟨n, 1⟩, 0⟩

/-- Multiplicative inverse in Q[sqrt 3]: `1/(a + b sqrt 3) =
(a - b sqrt 3)/(a^2 - 3 b^2)`.  The denominator vanishes only at `0`
(no nonzero rational pair has `a^2 = 3 b^2`, sqrt 3 being irrational);
like sympy we never invert `0` below. -/
def K.inv (p : K) : K :=
  let d : Q := p.a * p.a - 3 * p.b * p.b
  ⟨p.a / d, -p.b / d⟩

/-- Division in Q[sqrt 3]. -/
def K.div (p q : K) : K := p * q.inv

/-- Decide `0 < a + b * sqrt 3` exactly, by comparing `a^2` with `3 b^2`
in the mixed-sign cases. -/
def K.isPos (p : K) : Bool :=
  if p.b = 0 then decide (0 < p.a)
  else if 0 < p.b then decide (0 ≤ p.a) || decide (p.a * p.a < 3 * p.b * p.b)
  else decide (0 < p.a) && decide (3 * p.b * p.b < p.a * p.a)

/-- `cos(rad 60) = 1/2`, as evaluated exactly by sympy in the source. -/
def cos60 : K := ⟨⟨1, 2⟩, 0⟩

/-- `sin(rad 60) = sqrt(3)/2`, as evaluated exactly by sympy in the source. -/
def sin60 : K := ⟨0, ⟨1, 2⟩⟩

/-- A board cell (a graph node of the source): exact coordinates `x`, `y`
and the `peg` occupancy attribute. -/
structure Cell where
  x : K
  y : K
  peg : Bool
  deriving DecidableEq, Repr

/-- Node lookup by identity; node identities in the source are the
consecutive integers `0, 1, ...` in insertion order, so they coincide with
list positions.  The fallback cell is never reached for in-range ids. -/
def cellAt (cs : List Cell) (n : Nat) : Cell := cs.getD n ⟨0, 0, true⟩

/-- Exact arctangent in degrees, on the slopes that arise between adjacent
lattice cells.  Models sympy's automatic evaluation of `atan` at these
special exact values; a slope outside the table (which sympy would keep as
an unevaluated symbolic expression) is mapped to `none` and never occurs on
the three template boards. -/
def arctanDeg (t : K) : Option Q :=
  if t = 0 then some 0
  else if t = ⟨0, 1⟩ then some 60          -- tan 60 = sqrt 3
  else if t = ⟨0, -1⟩ then some (-60)
  else if t = 1 then some 45
  else if t = ⟨-1, 0⟩ then some (-45)
  else if t = ⟨0, ⟨1, 3⟩⟩ then some 30     -- tan 30 = sqrt(3)/3
  else if t = ⟨0, ⟨-1, 3⟩⟩ then some (-30)
  else none

/-- `deg(atan2(y, x))`: the two-argument arctangent in degrees, with
sympy's range `(-180, 180]`.  `atan2(0, 0)` (nan in sympy) never occurs:
the source only takes angles of unit-distance differences. -/
def atan2Deg (y x : K) : Option Q :=
  if x = 0 then
    if y = 0 then none
    else if y.isPos then some 90 else some (-90)
  else
    match arctanDeg (y.div x) with
    | none => none
    | some t =>
      if x.isPos then some t
      else if y.isPos then some (t + 180)
      else if y = 0 then some (t + 180)
      else some (t - 180)

/-- Python/sympy `q % 180` on exact numbers: `q - 180 * floor (q / 180)`. -/
def mod180 (q : Q) : Q := q - 180 * ⟨Q.floor (q / 180), 1⟩

/-- The stored direction angle of an edge with coordinate difference
`(x, y)`: the source's `(deg(atan2(y, x)) + 360) % 180`. -/
def foldAngle (y x : K) : Option Q := (atan2Deg y x).map (fun q => mod180 (q + 360))

/-- An edge record `(n0, n1, angle)` as created by `_calc_edges`:
endpoints with `n0 < n1` (from `itertools.combinations`) and the direction
angle attribute. -/
abbrev Edge := Nat × Nat × Option Q

/-- `Solitaire._calc_edges`: for every pair of nodes (in the order of
`itertools.combinations` over insertion order), if the exact squared
distance is 1, record an edge carrying the folded direction angle of the
coordinate difference `node[n0] - node[n1]`. -/
def calcEdges (cs : List Cell) : List Edge :=
  (List.range cs.length).flatMap fun n0 =>
    ((List.range cs.length).drop (n0 + 1)).filterMap fun n1 =>
      let x := (cellAt cs n0).x - (cellAt cs n1).x
      let y := (cellAt cs n0).y - (cellAt cs n1).y
      if x * x + y * y = 1 then some (n0, n1, foldAngle y x) else none

/-- The adjacency view `board[v]` of networkx: the neighbors of `v` with
the shared edge's angle attribute, in adjacency-dict insertion order (for
edges added in combinations order this is: smaller neighbors ascending,
then larger neighbors ascending — which is the order `filterMap` yields
from the combinations-ordered edge list). -/
def adjOf (es : List Edge) (v : Nat) : List (Nat × Option Q) :=
  es.filterMap fun e =>
    if e.1 = v then some (e.2.1, e.2.2)
    else if e.2.1 = v then some (e.1, e.2.2) else none

/-- `Solitaire._find_neighbor_jumper_pairs`: for each node `n0`, for each
neighbor `n1` (angle `a1`), for each neighbor `n2` of `n1` (angle `a2`),
if `n2` is not `n0` and `a1 == a2`, emit `(n1, n2)`.  (Python's `is not`
on the small-integer node ids coincides with inequality.) -/
def findPairs (es : List Edge) (n : Nat) : List (List (Nat × Nat)) :=
  (List.range n).map fun n0 =>
    (adjOf es n0).flatMap fun p1 =>
      (adjOf es p1.1).filterMap fun p2 =>
        if p2.1 ≠ n0 ∧ p1.2 = p2.2 then some (p1.1, p2.1) else none

/-- Models sympy's `.evalf()` on a coordinate: numeric evaluation replacing
the exact value `a + b * sqrt 3` by a rational floating-point approximation
(sqrt 3 to sympy's default 15 significant digits).  The exact mantissa is
immaterial to every claim; what matters is that the result is a rational
approximation — in particular it differs from the exact value whenever
`b` is nonzero, and equals it when the coordinate was already rational. -/
def evalf (p : K) : K := ⟨p.a + p.b * ⟨1732050807568877, 1000000000000000⟩, 0⟩

/-- `Solitaire.triangle`: five rows on the 60-degree lattice, row `i`
holding `i + 1` cells starting at `(-i cos 60, -i sin 60)` and stepping by
`+1` in `x`. -/
def triangleCells : List Cell :=
  (List.range 5).flatMap fun i =>
    (List.range (i + 1)).map fun j =>
      { x := -(natK i) * cos60 + natK j, y := -(natK i) * sin60, peg := true }

/-- The `add_holes` helper of `Solitaire.cross`: a rectangular block of
cells, `y` outer, `x` inner, all pegged. -/
def addHoles (ys xs : List Q) : List Cell :=
  ys.flatMap fun y => xs.map fun x => { x := ⟨x, 0⟩, y := ⟨y, 0⟩, peg := true }

/-- `Solitaire.cross`: three stacked rectangular blocks (top arm, middle
band, bottom arm). -/
def crossCells : List Cell :=
  addHoles [0, 1] [2, 3, 4] ++
    addHoles [2, 3, 4] [0, 1, 2, 3, 4, 5, 6] ++
    addHoles [5, 6] [2, 3, 4]

/-- `Solitaire.rhombus`: a 5 by 5 grid sheared along the 60-degree lattice
direction. -/
def rhombusCells : List Cell :=
  (List.range 5).flatMap fun yi =>
    (List.range 5).map fun x =>
      { x := natK x + natK yi * cos60, y := natK yi * sin60, peg := true }

/-!
The construction pipeline of `Solitaire.__init__`, stage by stage:
the starting-peg removal, then `_calc_edges`, then `_calc_pos` (which
evaluates the stored coordinates to floats in place and builds the `pos`
dictionary), then `_find_neighbor_jumper_pairs`.  Modelling the stages as
explicit state transformers lets us speak about the stored coordinates
before and after each stage.  (The source also stores `name`,
`total_holes = number of nodes` and `max_steps = number of nodes - 1`;
these are bookkeeping scalars no claim depends on and are omitted.)
-/

/-- Construction failure: `board.node[starting_hole]` raises a `KeyError`
when the starting hole is not a node identity — the spec's
`InvalidStartingHole` condition. -/
inductive Err where
  | invalidStartingHole
  deriving DecidableEq, Repr

/-- The mutable state of a `Solitaire` object: the graph nodes (cells),
the edge list with angle attributes, the jump-pair index, and the `pos`
display-coordinate table. -/
structure PyState where
  cells : List Cell
  edges : List Edge
  pairs : List (List (Nat × Nat))
  pos : List (K × K)
  deriving DecidableEq, Repr

/-- The state right after `board.node[starting_hole]['peg'] = False`:
the designated cell loses its peg, everything else is untouched and the
derived structures are not yet computed. -/
def stage0 (cs : List Cell) (hole : Nat) : PyState :=
  ⟨cs.set hole { cellAt cs hole with peg := false }, [], [], []⟩

/-- `_calc_edges` as a stage: fills in the edge list from the current
coordinates; touches nothing else. -/
def stepEdges (s : PyState) : PyState :=
  { s with edges := calcEdges s.cells }

/-- The in-place update `node['x'] = node['x'].evalf(); node['y'] =
node['y'].evalf()` performed by `_calc_pos` on each node. -/
def evalfCell (c : Cell) : Cell := { c with x := evalf c.x, y := evalf c.y }

/-- `_calc_pos` as a stage: evaluates every stored coordinate to its
floating approximation **in place** and records the `pos` table. -/
def stepPos (s : PyState) : PyState :=
  { s with
    cells := s.cells.map evalfCell
    pos := s.cells.map fun c => (evalf c.x, evalf c.y) }

/-- `_find_neighbor_jumper_pairs` as a stage: fills in the jump-pair index
from the edge list; touches nothing else. -/
def stepPairs (s : PyState) : PyState :=
  { s with pairs := findPairs s.edges s.cells.length }

/-- `Solitaire.__init__`: remove the starting peg (failing when the hole
is not a node identity — node identities are exactly `0 .. #cells - 1`),
then run `_calc_edges`, `_calc_pos`, `_find_neighbor_jumper_pairs` in that
order.  On failure nothing is constructed. -/
def buildBoard (cs : List Cell) (hole : Nat) : Except Err PyState :=
  if hole < cs.length then
    Except.ok (stepPairs (stepPos (stepEdges (stage0 cs hole))))
  else
    Except.error Err.invalidStartingHole

/-- `Solitaire.triangle()`: the triangle template with its default
starting hole 4. -/
def Solitaire.triangle : Except Err PyState := buildBoard triangleCells 4

/-- `Solitaire.cross()`: the cross template with its default starting
hole 16. -/
def Solitaire.cross : Except Err PyState := buildBoard crossCells 16

/-- `Solitaire.rhombus()`: the rhombus template with its default starting
hole 20. -/
def Solitaire.rhombus : Except Err PyState := buildBoard rhombusCells 20

/-!  Query helpers used to state the claims. -/

/-- The edge between `u` and `v`, if any (the edge list stores each
unordered pair once, with the smaller endpoint first). -/
def findEdge (es : List Edge) (u v : Nat) : Option Edge :=
  es.find? fun e => (e.1 = u && e.2.1 = v) || (e.1 = v && e.2.1 = u)

/-- Whether nodes `u` and `v` are adjacent. -/
def hasEdge (es : List Edge) (u v : Nat) : Bool := (findEdge es u v).isSome

/-- The angle attribute stored on the edge between `u` and `v` (outer
`none` when there is no such edge). -/
def angleAttr (es : List Edge) (u v : Nat) : Option (Option Q) :=
  (findEdge es u v).map fun e => e.2.2

/-- The degree of node `v` in the adjacency graph. -/
def degreeOf (es : List Edge) (v : Nat) : Nat := (adjOf es v).length

/-- The jump-pair entry keyed by cell `c`. -/
def pairsAt (ps : List (List (Nat × Nat))) (c : Nat) : List (Nat × Nat) :=
  ps.getD c []

/-- Exact squared Euclidean distance between the construction coordinates
of nodes `u` and `v`. -/
def distSq (cs : List Cell) (u v : Nat) : K :=
  let dx := (cellAt cs u).x - (cellAt cs v).x
  let dy := (cellAt cs u).y - (cellAt cs v).y
  dx * dx + dy * dy

/-!  The decidable properties the claims assert, and frozen values of the
three constructed boards (each frozen value is proved equal to the
pipeline's output below, and every claim is decided on the frozen data). -/

deriving instance DecidableEq for Except

/-- Soundness of the jump-pair index (claim C1): every recorded pair
`(n1, n2)` under key `c` consists of a neighbor `n1` of `c` and a neighbor
`n2` of `n1` distinct from `c`, with equal stored direction angles on the
two edges. -/
def jumpSound (es : List Edge) (ps : List (List (Nat × Nat))) : Prop :=
  ∀ c < ps.length, ∀ p ∈ pairsAt ps c,
    hasEdge es c p.1 = true ∧ hasEdge es p.1 p.2 = true ∧ p.2 ≠ c ∧
      angleAttr es c p.1 = angleAttr es p.1 p.2

/-- Completeness of the jump-pair index (claim C2): every triple
`(c, n1, n2)` of cells with `n2 ≠ c`, both edges present, and equal
direction angles is recorded exactly once under key `c` (as `(n1, n2)`)
and exactly once under key `n2` (as `(n1, c)`). -/
def jumpComplete (n : Nat) (es : List Edge) (ps : List (List (Nat × Nat))) : Prop :=
  ∀ c < n, ∀ n1 < n, ∀ n2 < n,
    (n2 ≠ c ∧ hasEdge es c n1 = true ∧ hasEdge es n1 n2 = true ∧
        angleAttr es c n1 = angleAttr es n1 n2) →
      (pairsAt ps c).count (n1, n2) = 1 ∧ (pairsAt ps n2).count (n1, c) = 1

/-- The adjacency invariant (claim C3): two distinct cells share an edge
exactly when the squared distance of their construction coordinates is 1,
and no cell is adjacent to itself. -/
def edgesIffUnit (cs : List Cell) (es : List Edge) : Prop :=
  (∀ u < cs.length, ∀ v < cs.length, u ≠ v →
      (hasEdge es u v = true ↔ distSq cs u v = 1)) ∧
    ∀ u < cs.length, hasEdge es u u = false

/-- Whether a stored angle attribute holds a value in the half-open
range `[0, 180)`. -/
def angleInRange (o : Option Q) : Bool :=
  match o with
  | some q => decide (0 ≤ q) && decide (q < 180)
  | none => false

/-- Well-formedness of the direction angles (claim C4): every edge's
stored angle is the folded `atan2` of the construction-coordinate
difference, the same value results from the reversed difference (angles
180 degrees apart fold together), and the value lies in `[0, 180)`. -/
def anglesWellFormed (cs : List Cell) (es : List Edge) : Prop :=
  ∀ e ∈ es,
    e.2.2 = foldAngle ((cellAt cs e.1).y - (cellAt cs e.2.1).y)
        ((cellAt cs e.1).x - (cellAt cs e.2.1).x) ∧
      e.2.2 = foldAngle ((cellAt cs e.2.1).y - (cellAt cs e.1).y)
        ((cellAt cs e.2.1).x - (cellAt cs e.1).x) ∧
      angleInRange e.2.2 = true

/-- The landing-cell geometry (claim C10): every jump pair `(n1, n2)`
under key `c` has a landing cell distinct from both other cells, at exact
squared distance 4 from the jumping cell's construction coordinates. -/
def jumpLanding (cs : List Cell) (ps : List (List (Nat × Nat))) : Prop :=
  ∀ c < ps.length, ∀ p ∈ pairsAt ps c,
    p.2 ≠ c ∧ p.2 ≠ p.1 ∧ distSq cs c p.2 = 4

/-- The starting-hole occupancy (claim C5): the board holds `n` cells, the
designated hole's peg is removed and every other cell keeps its peg. -/
def startingPegRemoved (s : PyState) (hole n : Nat) : Prop :=
  s.cells.length = n ∧ (cellAt s.cells hole).peg = false ∧
    ∀ i < n, i ≠ hole → (cellAt s.cells i).peg = true

/-- One rectangular block of lattice points, `y` rows outer, `x` columns
inner — the building block of the spec's description of the cross board. -/
def rectBlock (ys xs : List Q) : List (K × K) :=
  ys.flatMap fun y => xs.map fun x => (⟨x, 0⟩, ⟨y, 0⟩)

/-- The spec's description of the cross layout (claim C6): the union of a
top arm, a middle band and a bottom arm, three rectangular blocks. -/
def crossBlocksSpec : List (K × K) :=
  rectBlock [0, 1] [2, 3, 4] ++
    rectBlock [2, 3, 4] [0, 1, 2, 3, 4, 5, 6] ++
    rectBlock [5, 6] [2, 3, 4]

/-- Interior-degree property of the rhombus (claim C7): every cell off the
boundary of the 5 by 5 rhombus (grid position `(yi, xi)` with both indices
strictly between 0 and 4; node identity `5 * yi + xi`) has exactly six
neighbors. -/
def interiorDegreeSix (es : List Edge) : Prop :=
  ∀ yi < 5, ∀ xi < 5,
    yi ≠ 0 → yi ≠ 4 → xi ≠ 0 → xi ≠ 4 → degreeOf es (5 * yi + xi) = 6

/-- Frozen value of the corresponding layout cell list (proved equal to it below). -/
def triCells0L : List Cell :=
  [(⟨(⟨(⟨0, 1⟩ : Q), (⟨0, 1⟩ : Q)⟩ : K), (⟨(⟨0, 1⟩ : Q), (⟨0, 1⟩ : Q)⟩ : K), true⟩ : Cell), (⟨(⟨(⟨-1, 2⟩ : Q), (⟨0, 1⟩ : Q)⟩ : K), (⟨(⟨0, 1⟩ : Q), (⟨-1, 2⟩ : Q)⟩ : K), true⟩ : Cell), (⟨(⟨(⟨1, 2⟩ : Q), (⟨0, 1⟩ : Q)⟩ : K), (⟨(⟨0, 1⟩ : Q), (⟨-1, 2⟩ : Q)⟩ : K), true⟩ : Cell), (⟨(⟨(⟨-1, 1⟩ : Q), (⟨0, 1⟩ : Q)⟩ : K), (⟨(⟨0, 1⟩ : Q), (⟨-1, 1⟩ : Q)⟩ : K), true⟩ : Cell), (⟨(⟨(⟨0, 1⟩ : Q), (⟨0, 1⟩ : Q)⟩ : K), (⟨(⟨0, 1⟩ : Q), (⟨-1, 1⟩ : Q)⟩ : K), true⟩ : Cell), (⟨(⟨(⟨1, 1⟩ : Q), (⟨0, 1⟩ : Q)⟩ : K), (⟨(⟨0, 1⟩ : Q), (⟨-1, 1⟩ : Q)⟩ : K), true⟩ : Cell), (⟨(⟨(⟨-3, 2⟩ : Q), (⟨0, 1⟩ : Q)⟩ : K), (⟨(⟨0, 1⟩ : Q), (⟨-3, 2⟩ : Q)⟩ : K), true⟩ : Cell), (⟨(⟨(⟨-1, 2⟩ : Q), (⟨0, 1⟩ : Q)⟩ : K), (⟨(⟨0, 1⟩ : Q), (⟨-3, 2⟩ : Q)⟩ : K), true⟩ : Cell), (⟨(⟨(⟨1, 2⟩ : Q), (⟨0, 1⟩ : Q)⟩ : K), (⟨(⟨0, 1⟩ : Q), (⟨-3, 2⟩ : Q)⟩ : K), true⟩ : Cell), (⟨(⟨(⟨3, 2⟩ : Q), (⟨0, 1⟩ : Q)⟩ : K), (⟨(⟨0, 1⟩ : Q), (⟨-3, 2⟩ : Q)⟩ : K), true⟩ : Cell), (⟨(⟨(⟨-2, 1⟩ : Q), (⟨0, 1⟩ : Q)⟩ : K), (⟨(⟨0, 1⟩ : Q), (⟨-2, 1⟩ : Q)⟩ : K), true⟩ : Cell), (⟨(⟨(⟨-1, 1⟩ : Q), (⟨0, 1⟩ : Q)⟩ : K), (⟨(⟨0, 1⟩ : Q), (⟨-2, 1⟩ : Q)⟩ : K), true⟩ : Cell), (⟨(⟨(⟨0, 1⟩ : Q), (⟨0, 1⟩ : Q)⟩ : K), (⟨(⟨0, 1⟩ : Q), (⟨-2, 1⟩ : Q)⟩ : K), true⟩ : Cell), (⟨(⟨(⟨1, 1⟩ : Q), (⟨0, 1⟩ : Q)⟩ : K), (⟨(⟨0, 1⟩ : Q), (⟨-2, 1⟩ : Q)⟩ : K), true⟩ : Cell), (⟨(⟨(⟨2, 1⟩ : Q), (⟨0, 1⟩ : Q)⟩ : K), (⟨(⟨0, 1⟩ : Q), (⟨-2, 1⟩ : Q)⟩ : K), true⟩ : Cell)]

/-- Frozen value of the corresponding layout cell list (proved equal to it below). -/
def crossCells0L : List Cell :=
  [(⟨(⟨(⟨2, 1⟩ : Q), (⟨0, 1⟩ : Q)⟩ : K), (⟨(⟨0, 1⟩ : Q), (⟨0, 1⟩ : Q)⟩ : K), true⟩ : Cell), (⟨(⟨(⟨3, 1⟩ : Q), (⟨0, 1⟩ : Q)⟩ : K), (⟨(⟨0, 1⟩ : Q), (⟨0, 1⟩ : Q)⟩ : K), true⟩ : Cell), (⟨(⟨(⟨4, 1⟩ : Q), (⟨0, 1⟩ : Q)⟩ : K), (⟨(⟨0, 1⟩ : Q), (⟨0, 1⟩ : Q)⟩ : K), true⟩ : Cell), (⟨(⟨(⟨2, 1⟩ : Q), (⟨0, 1⟩ : Q)⟩ : K), (⟨(⟨1, 1⟩ : Q), (⟨0, 1⟩ : Q)⟩ : K), true⟩ : Cell), (⟨(⟨(⟨3, 1⟩ : Q), (⟨0, 1⟩ : Q)⟩ : K), (⟨(⟨1, 1⟩ : Q), (⟨0, 1⟩ : Q)⟩ : K), true⟩ : Cell), (⟨(⟨(⟨4, 1⟩ : Q), (⟨0, 1⟩ : Q)⟩ : K), (⟨(⟨1, 1⟩ : Q), (⟨0, 1⟩ : Q)⟩ : K), true⟩ : Cell), (⟨(⟨(⟨0, 1⟩ : Q), (⟨0, 1⟩ : Q)⟩ : K), (⟨(⟨2, 1⟩ : Q), (⟨0, 1⟩ : Q)⟩ : K), true⟩ : Cell), (⟨(⟨(⟨1, 1⟩ : Q), (⟨0, 1⟩ : Q)⟩ : K), (⟨(⟨2, 1⟩ : Q), (⟨0, 1⟩ : Q)⟩ : K), true⟩ : Cell), (⟨(⟨(⟨2, 1⟩ : Q), (⟨0, 1⟩ : Q)⟩ : K), (⟨(⟨2, 1⟩ : Q), (⟨0, 1⟩ : Q)⟩ : K), true⟩ : Cell), (⟨(⟨(⟨3, 1⟩ : Q), (⟨0, 1⟩ : Q)⟩ : K), (⟨(⟨2, 1⟩ : Q), (⟨0, 1⟩ : Q)⟩ : K), true⟩ : Cell), (⟨(⟨(⟨4, 1⟩ : Q), (⟨0, 1⟩ : Q)⟩ : K), (⟨(⟨2, 1⟩ : Q), (⟨0, 1⟩ : Q)⟩ : K), true⟩ : Cell), (⟨(⟨(⟨5, 1⟩ : Q), (⟨0, 1⟩ : Q)⟩ : K), (⟨(⟨2, 1⟩ : Q), (⟨0, 1⟩ : Q)⟩ : K), true⟩ : Cell), (⟨(⟨(⟨6, 1⟩ : Q), (⟨0, 1⟩ : Q)⟩ : K), (⟨(⟨2, 1⟩ : Q), (⟨0, 1⟩ : Q)⟩ : K), true⟩ : Cell), (⟨(⟨(⟨0, 1⟩ : Q), (⟨0, 1⟩ : Q)⟩ : K), (⟨(⟨3, 1⟩ : Q), (⟨0, 1⟩ : Q)⟩ : K), true⟩ : Cell), (⟨(⟨(⟨1, 1⟩ : Q), (⟨0, 1⟩ : Q)⟩ : K), (⟨(⟨3, 1⟩ : Q), (⟨0, 1⟩ : Q)⟩ : K), true⟩ : Cell), (⟨(⟨(⟨2, 1⟩ : Q), (⟨0, 1⟩ : Q)⟩ : K), (⟨(⟨3, 1⟩ : Q), (⟨0, 1⟩ : Q)⟩ : K), true⟩ : Cell), (⟨(⟨(⟨3, 1⟩ : Q), (⟨0, 1⟩ : Q)⟩ : K), (⟨(⟨3, 1⟩ : Q), (⟨0, 1⟩ : Q)⟩ : K), true⟩ : Cell), (⟨(⟨(⟨4, 1⟩ : Q), (⟨0, 1⟩ : Q)⟩ : K), (⟨(⟨3, 1⟩ : Q), (⟨0, 1⟩ : Q)⟩ : K), true⟩ : Cell), (⟨(⟨(⟨5, 1⟩ : Q), (⟨0, 1⟩ : Q)⟩ : K), (⟨(⟨3, 1⟩ : Q), (⟨0, 1⟩ : Q)⟩ : K), true⟩ : Cell), (⟨(⟨(⟨6, 1⟩ : Q), (⟨0, 1⟩ : Q)⟩ : K), (⟨(⟨3, 1⟩ : Q), (⟨0, 1⟩ : Q)⟩ : K), true⟩ : Cell), (⟨(⟨(⟨0, 1⟩ : Q), (⟨0, 1⟩ : Q)⟩ : K), (⟨(⟨4, 1⟩ : Q), (⟨0, 1⟩ : Q)⟩ : K), true⟩ : Cell), (⟨(⟨(⟨1, 1⟩ : Q), (⟨0, 1⟩ : Q)⟩ : K), (⟨(⟨4, 1⟩ : Q), (⟨0, 1⟩ : Q)⟩ : K), true⟩ : Cell), (⟨(⟨(⟨2, 1⟩ : Q), (⟨0, 1⟩ : Q)⟩ : K), (⟨(⟨4, 1⟩ : Q), (⟨0, 1⟩ : Q)⟩ : K), true⟩ : Cell), (⟨(⟨(⟨3, 1⟩ : Q), (⟨0, 1⟩ : Q)⟩ : K), (⟨(⟨4, 1⟩ : Q), (⟨0, 1⟩ : Q)⟩ : K), true⟩ : Cell), (⟨(⟨(⟨4, 1⟩ : Q), (⟨0, 1⟩ : Q)⟩ : K), (⟨(⟨4, 1⟩ : Q), (⟨0, 1⟩ : Q)⟩ : K), true⟩ : Cell), (⟨(⟨(⟨5, 1⟩ : Q), (⟨0, 1⟩ : Q)⟩ : K), (⟨(⟨4, 1⟩ : Q), (⟨0, 1⟩ : Q)⟩ : K), true⟩ : Cell), (⟨(⟨(⟨6, 1⟩ : Q), (⟨0, 1⟩ : Q)⟩ : K), (⟨(⟨4, 1⟩ : Q), (⟨0, 1⟩ : Q)⟩ : K), true⟩ : Cell), (⟨(⟨(⟨2, 1⟩ : Q), (⟨0, 1⟩ : Q)⟩ : K), (⟨(⟨5, 1⟩ : Q), (⟨0, 1⟩ : Q)⟩ : K), true⟩ : Cell), (⟨(⟨(⟨3, 1⟩ : Q), (⟨0, 1⟩ : Q)⟩ : K), (⟨(⟨5, 1⟩ : Q), (⟨0, 1⟩ : Q)⟩ : K), true⟩ : Cell), (⟨(⟨(⟨4, 1⟩ : Q), (⟨0, 1⟩ : Q)⟩ : K), (⟨(⟨5, 1⟩ : Q), (⟨0, 1⟩ : Q)⟩ : K), true⟩ : Cell), (⟨(⟨(⟨2, 1⟩ : Q), (⟨0, 1⟩ : Q)⟩ : K), (⟨(⟨6, 1⟩ : Q), (⟨0, 1⟩ : Q)⟩ : K), true⟩ : Cell), (⟨(⟨(⟨3, 1⟩ : Q), (⟨0, 1⟩ : Q)⟩ : K), (⟨(⟨6, 1⟩ : Q), (⟨0, 1⟩ : Q)⟩ : K), true⟩ : Cell), (⟨(⟨(⟨4, 1⟩ : Q), (⟨0, 1⟩ : Q)⟩ : K), (⟨(⟨6, 1⟩ : Q), (⟨0, 1⟩ : Q)⟩ : K), true⟩ : Cell)]

/-- Frozen value of the corresponding layout cell list (proved equal to it below). -/
def rhomCells0L : List Cell :=
  [(⟨(⟨(⟨0, 1⟩ : Q), (⟨0, 1⟩ : Q)⟩ : K), (⟨(⟨0, 1⟩ : Q), (⟨0, 1⟩ : Q)⟩ : K), true⟩ : Cell), (⟨(⟨(⟨1, 1⟩ : Q), (⟨0, 1⟩ : Q)⟩ : K), (⟨(⟨0, 1⟩ : Q), (⟨0, 1⟩ : Q)⟩ : K), true⟩ : Cell), (⟨(⟨(⟨2, 1⟩ : Q), (⟨0, 1⟩ : Q)⟩ : K), (⟨(⟨0, 1⟩ : Q), (⟨0, 1⟩ : Q)⟩ : K), true⟩ : Cell), (⟨(⟨(⟨3, 1⟩ : Q), (⟨0, 1⟩ : Q)⟩ : K), (⟨(⟨0, 1⟩ : Q), (⟨0, 1⟩ : Q)⟩ : K), true⟩ : Cell), (⟨(⟨(⟨4, 1⟩ : Q), (⟨0, 1⟩ : Q)⟩ : K), (⟨(⟨0, 1⟩ : Q), (⟨0, 1⟩ : Q)⟩ : K), true⟩ : Cell), (⟨(⟨(⟨1, 2⟩ : Q), (⟨0, 1⟩ : Q)⟩ : K), (⟨(⟨0, 1⟩ : Q), (⟨1, 2⟩ : Q)⟩ : K), true⟩ : Cell), (⟨(⟨(⟨3, 2⟩ : Q), (⟨0, 1⟩ : Q)⟩ : K), (⟨(⟨0, 1⟩ : Q), (⟨1, 2⟩ : Q)⟩ : K), true⟩ : Cell), (⟨(⟨(⟨5, 2⟩ : Q), (⟨0, 1⟩ : Q)⟩ : K), (⟨(⟨0, 1⟩ : Q), (⟨1, 2⟩ : Q)⟩ : K), true⟩ : Cell), (⟨(⟨(⟨7, 2⟩ : Q), (⟨0, 1⟩ : Q)⟩ : K), (⟨(⟨0, 1⟩ : Q), (⟨1, 2⟩ : Q)⟩ : K), true⟩ : Cell), (⟨(⟨(⟨9, 2⟩ : Q), (⟨0, 1⟩ : Q)⟩ : K), (⟨(⟨0, 1⟩ : Q), (⟨1, 2⟩ : Q)⟩ : K), true⟩ : Cell), (⟨(⟨(⟨1, 1⟩ : Q), (⟨0, 1⟩ : Q)⟩ : K), (⟨(⟨0, 1⟩ : Q), (⟨1, 1⟩ : Q)⟩ : K), true⟩ : Cell), (⟨(⟨(⟨2, 1⟩ : Q), (⟨0, 1⟩ : Q)⟩ : K), (⟨(⟨0, 1⟩ : Q), (⟨1, 1⟩ : Q)⟩ : K), true⟩ : Cell), (⟨(⟨(⟨3, 1⟩ : Q), (⟨0, 1⟩ : Q)⟩ : K), (⟨(⟨0, 1⟩ : Q), (⟨1, 1⟩ : Q)⟩ : K), true⟩ : Cell), (⟨(⟨(⟨4, 1⟩ : Q), (⟨0, 1⟩ : Q)⟩ : K), (⟨(⟨0, 1⟩ : Q), (⟨1, 1⟩ : Q)⟩ : K), true⟩ : Cell), (⟨(⟨(⟨5, 1⟩ : Q), (⟨0, 1⟩ : Q)⟩ : K), (⟨(⟨0, 1⟩ : Q), (⟨1, 1⟩ : Q)⟩ : K), true⟩ : Cell), (⟨(⟨(⟨3, 2⟩ : Q), (⟨0, 1⟩ : Q)⟩ : K), (⟨(⟨0, 1⟩ : Q), (⟨3, 2⟩ : Q)⟩ : K), true⟩ : Cell), (⟨(⟨(⟨5, 2⟩ : Q), (⟨0, 1⟩ : Q)⟩ : K), (⟨(⟨0, 1⟩ : Q), (⟨3, 2⟩ : Q)⟩ : K), true⟩ : Cell), (⟨(⟨(⟨7, 2⟩ : Q), (⟨0, 1⟩ : Q)⟩ : K), (⟨(⟨0, 1⟩ : Q), (⟨3, 2⟩ : Q)⟩ : K), true⟩ : Cell), (⟨(⟨(⟨9, 2⟩ : Q), (⟨0, 1⟩ : Q)⟩ : K), (⟨(⟨0, 1⟩ : Q), (⟨3, 2⟩ : Q)⟩ : K), true⟩ : Cell), (⟨(⟨(⟨11, 2⟩ : Q), (⟨0, 1⟩ : Q)⟩ : K), (⟨(⟨0, 1⟩ : Q), (⟨3, 2⟩ : Q)⟩ : K), true⟩ : Cell), (⟨(⟨(⟨2, 1⟩ : Q), (⟨0, 1⟩ : Q)⟩ : K), (⟨(⟨0, 1⟩ : Q), (⟨2, 1⟩ : Q)⟩ : K), true⟩ : Cell), (⟨(⟨(⟨3, 1⟩ : Q), (⟨0, 1⟩ : Q)⟩ : K), (⟨(⟨0, 1⟩ : Q), (⟨2, 1⟩ : Q)⟩ : K), true⟩ : Cell), (⟨(⟨(⟨4, 1⟩ : Q), (⟨0, 1⟩ : Q)⟩ : K), (⟨(⟨0, 1⟩ : Q), (⟨2, 1⟩ : Q)⟩ : K), true⟩ : Cell), (⟨(⟨(⟨5, 1⟩ : Q), (⟨0, 1⟩ : Q)⟩ : K), (⟨(⟨0, 1⟩ : Q), (⟨2, 1⟩ : Q)⟩ : K), true⟩ : Cell), (⟨(⟨(⟨6, 1⟩ : Q), (⟨0, 1⟩ : Q)⟩ : K), (⟨(⟨0, 1⟩ : Q), (⟨2, 1⟩ : Q)⟩ : K), true⟩ : Cell)]

/-- Frozen value of the corresponding component of the built board (checked against the pipeline below). -/
def triCellsL : List Cell :=
  [(⟨(⟨(⟨0, 1⟩ : Q), (⟨0, 1⟩ : Q)⟩ : K), (⟨(⟨0, 1⟩ : Q), (⟨0, 1⟩ : Q)⟩ : K), true⟩ : Cell), (⟨(⟨(⟨-1, 2⟩ : Q), (⟨0, 1⟩ : Q)⟩ : K), (⟨(⟨-1732050807568877, 2000000000000000⟩ : Q), (⟨0, 1⟩ : Q)⟩ : K), true⟩ : Cell), (⟨(⟨(⟨1, 2⟩ : Q), (⟨0, 1⟩ : Q)⟩ : K), (⟨(⟨-1732050807568877, 2000000000000000⟩ : Q), (⟨0, 1⟩ : Q)⟩ : K), true⟩ : Cell), (⟨(⟨(⟨-1, 1⟩ : Q), (⟨0, 1⟩ : Q)⟩ : K), (⟨(⟨-1732050807568877, 1000000000000000⟩ : Q), (⟨0, 1⟩ : Q)⟩ : K), true⟩ : Cell), (⟨(⟨(⟨0, 1⟩ : Q), (⟨0, 1⟩ : Q)⟩ : K), (⟨(⟨-1732050807568877, 1000000000000000⟩ : Q), (⟨0, 1⟩ : Q)⟩ : K), false⟩ : Cell), (⟨(⟨(⟨1, 1⟩ : Q), (⟨0, 1⟩ : Q)⟩ : K), (⟨(⟨-1732050807568877, 1000000000000000⟩ : Q), (⟨0, 1⟩ : Q)⟩ : K), true⟩ : Cell), (⟨(⟨(⟨-3, 2⟩ : Q), (⟨0, 1⟩ : Q)⟩ : K), (⟨(⟨-5196152422706631, 2000000000000000⟩ : Q), (⟨0, 1⟩ : Q)⟩ : K), true⟩ : Cell), (⟨(⟨(⟨-1, 2⟩ : Q), (⟨0, 1⟩ : Q)⟩ : K), (⟨(⟨-5196152422706631, 2000000000000000⟩ : Q), (⟨0, 1⟩ : Q)⟩ : K), true⟩ : Cell), (⟨(⟨(⟨1, 2⟩ : Q), (⟨0, 1⟩ : Q)⟩ : K), (⟨(⟨-5196152422706631, 2000000000000000⟩ : Q), (⟨0, 1⟩ : Q)⟩ : K), true⟩ : Cell), (⟨(⟨(⟨3, 2⟩ : Q), (⟨0, 1⟩ : Q)⟩ : K), (⟨(⟨-5196152422706631, 2000000000000000⟩ : Q), (⟨0, 1⟩ : Q)⟩ : K), true⟩ : Cell), (⟨(⟨(⟨-2, 1⟩ : Q), (⟨0, 1⟩ : Q)⟩ : K), (⟨(⟨-1732050807568877, 500000000000000⟩ : Q), (⟨0, 1⟩ : Q)⟩ : K), true⟩ : Cell), (⟨(⟨(⟨-1, 1⟩ : Q), (⟨0, 1⟩ : Q)⟩ : K), (⟨(⟨-1732050807568877, 500000000000000⟩ : Q), (⟨0, 1⟩ : Q)⟩ : K), true⟩ : Cell), (⟨(⟨(⟨0, 1⟩ : Q), (⟨0, 1⟩ : Q)⟩ : K), (⟨(⟨-1732050807568877, 500000000000000⟩ : Q), (⟨0, 1⟩ : Q)⟩ : K), true⟩ : Cell), (⟨(⟨(⟨1, 1⟩ : Q), (⟨0, 1⟩ : Q)⟩ : K), (⟨(⟨-1732050807568877, 500000000000000⟩ : Q), (⟨0, 1⟩ : Q)⟩ : K), true⟩ : Cell), (⟨(⟨(⟨2, 1⟩ : Q), (⟨0, 1⟩ : Q)⟩ : K), (⟨(⟨-1732050807568877, 500000000000000⟩ : Q), (⟨0, 1⟩ : Q)⟩ : K), true⟩ : Cell)]

/-- Frozen value of the corresponding component of the built board (checked against the pipeline below). -/
def triEdgesL : List Edge :=
  [(0, 1, some (⟨60, 1⟩ : Q)), (0, 2, some (⟨120, 1⟩ : Q)), (1, 2, some (⟨0, 1⟩ : Q)), (1, 3, some (⟨60, 1⟩ : Q)), (1, 4, some (⟨120, 1⟩ : Q)), (2, 4, some (⟨60, 1⟩ : Q)), (2, 5, some (⟨120, 1⟩ : Q)), (3, 4, some (⟨0, 1⟩ : Q)), (3, 6, some (⟨60, 1⟩ : Q)), (3, 7, some (⟨120, 1⟩ : Q)), (4, 5, some (⟨0, 1⟩ : Q)), (4, 7, some (⟨60, 1⟩ : Q)), (4, 8, some (⟨120, 1⟩ : Q)), (5, 8, some (⟨60, 1⟩ : Q)), (5, 9, some (⟨120, 1⟩ : Q)), (6, 7, some (⟨0, 1⟩ : Q)), (6, 10, some (⟨60, 1⟩ : Q)), (6, 11, some (⟨120, 1⟩ : Q)), (7, 8, some (⟨0, 1⟩ : Q)), (7, 11, some (⟨60, 1⟩ : Q)), (7, 12, some (⟨120, 1⟩ : Q)), (8, 9, some (⟨0, 1⟩ : Q)), (8, 12, some (⟨60, 1⟩ : Q)), (8, 13, some (⟨120, 1⟩ : Q)), (9, 13, some (⟨60, 1⟩ : Q)), (9, 14, some (⟨120, 1⟩ : Q)), (10, 11, some (⟨0, 1⟩ : Q)), (11, 12, some (⟨0, 1⟩ : Q)), (12, 13, some (⟨0, 1⟩ : Q)), (13, 14, some (⟨0, 1⟩ : Q))]

/-- Frozen value of the corresponding component of the built board (checked against the pipeline below). -/
def triPairsL : List (List (Nat × Nat)) :=
  [[(1, 3), (2, 5)], [(3, 6), (4, 8)], [(4, 7), (5, 9)], [(1, 0), (4, 5), (6, 10), (7, 12)], [(7, 11), (8, 13)], [(2, 0), (4, 3), (8, 12), (9, 14)], [(3, 1), (7, 8)], [(4, 2), (8, 9)], [(4, 1), (7, 6)], [(5, 2), (8, 7)], [(6, 3), (11, 12)], [(7, 4), (12, 13)], [(7, 3), (8, 5), (11, 10), (13, 14)], [(8, 4), (12, 11)], [(9, 5), (13, 12)]]

/-- Frozen value of the corresponding component of the built board (checked against the pipeline below). -/
def triPosL : List (K × K) :=
  [((⟨(⟨0, 1⟩ : Q), (⟨0, 1⟩ : Q)⟩ : K), (⟨(⟨0, 1⟩ : Q), (⟨0, 1⟩ : Q)⟩ : K)), ((⟨(⟨-1, 2⟩ : Q), (⟨0, 1⟩ : Q)⟩ : K), (⟨(⟨-1732050807568877, 2000000000000000⟩ : Q), (⟨0, 1⟩ : Q)⟩ : K)), ((⟨(⟨1, 2⟩ : Q), (⟨0, 1⟩ : Q)⟩ : K), (⟨(⟨-1732050807568877, 2000000000000000⟩ : Q), (⟨0, 1⟩ : Q)⟩ : K)), ((⟨(⟨-1, 1⟩ : Q), (⟨0, 1⟩ : Q)⟩ : K), (⟨(⟨-1732050807568877, 1000000000000000⟩ : Q), (⟨0, 1⟩ : Q)⟩ : K)), ((⟨(⟨0, 1⟩ : Q), (⟨0, 1⟩ : Q)⟩ : K), (⟨(⟨-1732050807568877, 1000000000000000⟩ : Q), (⟨0, 1⟩ : Q)⟩ : K)), ((⟨(⟨1, 1⟩ : Q), (⟨0, 1⟩ : Q)⟩ : K), (⟨(⟨-1732050807568877, 1000000000000000⟩ : Q), (⟨0, 1⟩ : Q)⟩ : K)), ((⟨(⟨-3, 2⟩ : Q), (⟨0, 1⟩ : Q)⟩ : K), (⟨(⟨-5196152422706631, 2000000000000000⟩ : Q), (⟨0, 1⟩ : Q)⟩ : K)), ((⟨(⟨-1, 2⟩ : Q), (⟨0, 1⟩ : Q)⟩ : K), (⟨(⟨-5196152422706631, 2000000000000000⟩ : Q), (⟨0, 1⟩ : Q)⟩ : K)), ((⟨(⟨1, 2⟩ : Q), (⟨0, 1⟩ : Q)⟩ : K), (⟨(⟨-5196152422706631, 2000000000000000⟩ : Q), (⟨0, 1⟩ : Q)⟩ : K)), ((⟨(⟨3, 2⟩ : Q), (⟨0, 1⟩ : Q)⟩ : K), (⟨(⟨-5196152422706631, 2000000000000000⟩ : Q), (⟨0, 1⟩ : Q)⟩ : K)), ((⟨(⟨-2, 1⟩ : Q), (⟨0, 1⟩ : Q)⟩ : K), (⟨(⟨-1732050807568877, 500000000000000⟩ : Q), (⟨0, 1⟩ : Q)⟩ : K)), ((⟨(⟨-1, 1⟩ : Q), (⟨0, 1⟩ : Q)⟩ : K), (⟨(⟨-1732050807568877, 500000000000000⟩ : Q), (⟨0, 1⟩ : Q)⟩ : K)), ((⟨(⟨0, 1⟩ : Q), (⟨0, 1⟩ : Q)⟩ : K), (⟨(⟨-1732050807568877, 500000000000000⟩ : Q), (⟨0, 1⟩ : Q)⟩ : K)), ((⟨(⟨1, 1⟩ : Q), (⟨0, 1⟩ : Q)⟩ : K), (⟨(⟨-1732050807568877, 500000000000000⟩ : Q), (⟨0, 1⟩ : Q)⟩ : K)), ((⟨(⟨2, 1⟩ : Q), (⟨0, 1⟩ : Q)⟩ : K), (⟨(⟨-1732050807568877, 500000000000000⟩ : Q), (⟨0, 1⟩ : Q)⟩ : K))]

/-- Frozen value of the corresponding component of the built board (checked against the pipeline below). -/
def crossCellsL : List Cell :=
  [(⟨(⟨(⟨2, 1⟩ : Q), (⟨0, 1⟩ : Q)⟩ : K), (⟨(⟨0, 1⟩ : Q), (⟨0, 1⟩ : Q)⟩ : K), true⟩ : Cell), (⟨(⟨(⟨3, 1⟩ : Q), (⟨0, 1⟩ : Q)⟩ : K), (⟨(⟨0, 1⟩ : Q), (⟨0, 1⟩ : Q)⟩ : K), true⟩ : Cell), (⟨(⟨(⟨4, 1⟩ : Q), (⟨0, 1⟩ : Q)⟩ : K), (⟨(⟨0, 1⟩ : Q), (⟨0, 1⟩ : Q)⟩ : K), true⟩ : Cell), (⟨(⟨(⟨2, 1⟩ : Q), (⟨0, 1⟩ : Q)⟩ : K), (⟨(⟨1, 1⟩ : Q), (⟨0, 1⟩ : Q)⟩ : K), true⟩ : Cell), (⟨(⟨(⟨3, 1⟩ : Q), (⟨0, 1⟩ : Q)⟩ : K), (⟨(⟨1, 1⟩ : Q), (⟨0, 1⟩ : Q)⟩ : K), true⟩ : Cell), (⟨(⟨(⟨4, 1⟩ : Q), (⟨0, 1⟩ : Q)⟩ : K), (⟨(⟨1, 1⟩ : Q), (⟨0, 1⟩ : Q)⟩ : K), true⟩ : Cell), (⟨(⟨(⟨0, 1⟩ : Q), (⟨0, 1⟩ : Q)⟩ : K), (⟨(⟨2, 1⟩ : Q), (⟨0, 1⟩ : Q)⟩ : K), true⟩ : Cell), (⟨(⟨(⟨1, 1⟩ : Q), (⟨0, 1⟩ : Q)⟩ : K), (⟨(⟨2, 1⟩ : Q), (⟨0, 1⟩ : Q)⟩ : K), true⟩ : Cell), (⟨(⟨(⟨2, 1⟩ : Q), (⟨0, 1⟩ : Q)⟩ : K), (⟨(⟨2, 1⟩ : Q), (⟨0, 1⟩ : Q)⟩ : K), true⟩ : Cell), (⟨(⟨(⟨3, 1⟩ : Q), (⟨0, 1⟩ : Q)⟩ : K), (⟨(⟨2, 1⟩ : Q), (⟨0, 1⟩ : Q)⟩ : K), true⟩ : Cell), (⟨(⟨(⟨4, 1⟩ : Q), (⟨0, 1⟩ : Q)⟩ : K), (⟨(⟨2, 1⟩ : Q), (⟨0, 1⟩ : Q)⟩ : K), true⟩ : Cell), (⟨(⟨(⟨5, 1⟩ : Q), (⟨0, 1⟩ : Q)⟩ : K), (⟨(⟨2, 1⟩ : Q), (⟨0, 1⟩ : Q)⟩ : K), true⟩ : Cell), (⟨(⟨(⟨6, 1⟩ : Q), (⟨0, 1⟩ : Q)⟩ : K), (⟨(⟨2, 1⟩ : Q), (⟨0, 1⟩ : Q)⟩ : K), true⟩ : Cell), (⟨(⟨(⟨0, 1⟩ : Q), (⟨0, 1⟩ : Q)⟩ : K), (⟨(⟨3, 1⟩ : Q), (⟨0, 1⟩ : Q)⟩ : K), true⟩ : Cell), (⟨(⟨(⟨1, 1⟩ : Q), (⟨0, 1⟩ : Q)⟩ : K), (⟨(⟨3, 1⟩ : Q), (⟨0, 1⟩ : Q)⟩ : K), true⟩ : Cell), (⟨(⟨(⟨2, 1⟩ : Q), (⟨0, 1⟩ : Q)⟩ : K), (⟨(⟨3, 1⟩ : Q), (⟨0, 1⟩ : Q)⟩ : K), true⟩ : Cell), (⟨(⟨(⟨3, 1⟩ : Q), (⟨0, 1⟩ : Q)⟩ : K), (⟨(⟨3, 1⟩ : Q), (⟨0, 1⟩ : Q)⟩ : K), false⟩ : Cell), (⟨(⟨(⟨4, 1⟩ : Q), (⟨0, 1⟩ : Q)⟩ : K), (⟨(⟨3, 1⟩ : Q), (⟨0, 1⟩ : Q)⟩ : K), true⟩ : Cell), (⟨(⟨(⟨5, 1⟩ : Q), (⟨0, 1⟩ : Q)⟩ : K), (⟨(⟨3, 1⟩ : Q), (⟨0, 1⟩ : Q)⟩ : K), true⟩ : Cell), (⟨(⟨(⟨6, 1⟩ : Q), (⟨0, 1⟩ : Q)⟩ : K), (⟨(⟨3, 1⟩ : Q), (⟨0, 1⟩ : Q)⟩ : K), true⟩ : Cell), (⟨(⟨(⟨0, 1⟩ : Q), (⟨0, 1⟩ : Q)⟩ : K), (⟨(⟨4, 1⟩ : Q), (⟨0, 1⟩ : Q)⟩ : K), true⟩ : Cell), (⟨(⟨(⟨1, 1⟩ : Q), (⟨0, 1⟩ : Q)⟩ : K), (⟨(⟨4, 1⟩ : Q), (⟨0, 1⟩ : Q)⟩ : K), true⟩ : Cell), (⟨(⟨(⟨2, 1⟩ : Q), (⟨0, 1⟩ : Q)⟩ : K), (⟨(⟨4, 1⟩ : Q), (⟨0, 1⟩ : Q)⟩ : K), true⟩ : Cell), (⟨(⟨(⟨3, 1⟩ : Q), (⟨0, 1⟩ : Q)⟩ : K), (⟨(⟨4, 1⟩ : Q), (⟨0, 1⟩ : Q)⟩ : K), true⟩ : Cell), (⟨(⟨(⟨4, 1⟩ : Q), (⟨0, 1⟩ : Q)⟩ : K), (⟨(⟨4, 1⟩ : Q), (⟨0, 1⟩ : Q)⟩ : K), true⟩ : Cell), (⟨(⟨(⟨5, 1⟩ : Q), (⟨0, 1⟩ : Q)⟩ : K), (⟨(⟨4, 1⟩ : Q), (⟨0, 1⟩ : Q)⟩ : K), true⟩ : Cell), (⟨(⟨(⟨6, 1⟩ : Q), (⟨0, 1⟩ : Q)⟩ : K), (⟨(⟨4, 1⟩ : Q), (⟨0, 1⟩ : Q)⟩ : K), true⟩ : Cell), (⟨(⟨(⟨2, 1⟩ : Q), (⟨0, 1⟩ : Q)⟩ : K), (⟨(⟨5, 1⟩ : Q), (⟨0, 1⟩ : Q)⟩ : K), true⟩ : Cell), (⟨(⟨(⟨3, 1⟩ : Q), (⟨0, 1⟩ : Q)⟩ : K), (⟨(⟨5, 1⟩ : Q), (⟨0, 1⟩ : Q)⟩ : K), true⟩ : Cell), (⟨(⟨(⟨4, 1⟩ : Q), (⟨0, 1⟩ : Q)⟩ : K), (⟨(⟨5, 1⟩ : Q), (⟨0, 1⟩ : Q)⟩ : K), true⟩ : Cell), (⟨(⟨(⟨2, 1⟩ : Q), (⟨0, 1⟩ : Q)⟩ : K), (⟨(⟨6, 1⟩ : Q), (⟨0, 1⟩ : Q)⟩ : K), true⟩ : Cell), (⟨(⟨(⟨3, 1⟩ : Q), (⟨0, 1⟩ : Q)⟩ : K), (⟨(⟨6, 1⟩ : Q), (⟨0, 1⟩ : Q)⟩ : K), true⟩ : Cell), (⟨(⟨(⟨4, 1⟩ : Q), (⟨0, 1⟩ : Q)⟩ : K), (⟨(⟨6, 1⟩ : Q), (⟨0, 1⟩ : Q)⟩ : K), true⟩ : Cell)]

/-- Frozen value of the corresponding component of the built board (checked against the pipeline below). -/
def crossEdgesL : List Edge :=
  [(0, 1, some (⟨0, 1⟩ : Q)), (0, 3, some (⟨90, 1⟩ : Q)), (1, 2, some (⟨0, 1⟩ : Q)), (1, 4, some (⟨90, 1⟩ : Q)), (2, 5, some (⟨90, 1⟩ : Q)), (3, 4, some (⟨0, 1⟩ : Q)), (3, 8, some (⟨90, 1⟩ : Q)), (4, 5, some (⟨0, 1⟩ : Q)), (4, 9, some (⟨90, 1⟩ : Q)), (5, 10, some (⟨90, 1⟩ : Q)), (6, 7, some (⟨0, 1⟩ : Q)), (6, 13, some (⟨90, 1⟩ : Q)), (7, 8, some (⟨0, 1⟩ : Q)), (7, 14, some (⟨90, 1⟩ : Q)), (8, 9, some (⟨0, 1⟩ : Q)), (8, 15, some (⟨90, 1⟩ : Q)), (9, 10, some (⟨0, 1⟩ : Q)), (9, 16, some (⟨90, 1⟩ : Q)), (10, 11, some (⟨0, 1⟩ : Q)), (10, 17, some (⟨90, 1⟩ : Q)), (11, 12, some (⟨0, 1⟩ : Q)), (11, 18, some (⟨90, 1⟩ : Q)), (12, 19, some (⟨90, 1⟩ : Q)), (13, 14, some (⟨0, 1⟩ : Q)), (13, 20, some (⟨90, 1⟩ : Q)), (14, 15, some (⟨0, 1⟩ : Q)), (14, 21, some (⟨90, 1⟩ : Q)), (15, 16, some (⟨0, 1⟩ : Q)), (15, 22, some (⟨90, 1⟩ : Q)), (16, 17, some (⟨0, 1⟩ : Q)), (16, 23, some (⟨90, 1⟩ : Q)), (17, 18, some (⟨0, 1⟩ : Q)), (17, 24, some (⟨90, 1⟩ : Q)), (18, 19, some (⟨0, 1⟩ : Q)), (18, 25, some (⟨90, 1⟩ : Q)), (19, 26, some (⟨90, 1⟩ : Q)), (20, 21, some (⟨0, 1⟩ : Q)), (21, 22, some (⟨0, 1⟩ : Q)), (22, 23, some (⟨0, 1⟩ : Q)), (22, 27, some (⟨90, 1⟩ : Q)), (23, 24, some (⟨0, 1⟩ : Q)), (23, 28, some (⟨90, 1⟩ : Q)), (24, 25, some (⟨0, 1⟩ : Q)), (24, 29, some (⟨90, 1⟩ : Q)), (25, 26, some (⟨0, 1⟩ : Q)), (27, 28, some (⟨0, 1⟩ : Q)), (27, 30, some (⟨90, 1⟩ : Q)), (28, 29, some (⟨0, 1⟩ : Q)), (28, 31, some (⟨90, 1⟩ : Q)), (29, 32, some (⟨90, 1⟩ : Q)), (30, 31, some (⟨0, 1⟩ : Q)), (31, 32, some (⟨0, 1⟩ : Q))]

/-- Frozen value of the corresponding component of the built board (checked against the pipeline below). -/
def crossPairsL : List (List (Nat × Nat)) :=
  [[(1, 2), (3, 8)], [(4, 9)], [(1, 0), (5, 10)], [(4, 5), (8, 15)], [(9, 16)], [(4, 3), (10, 17)], [(7, 8), (13, 20)], [(8, 9), (14, 21)], [(3, 0), (7, 6), (9, 10), (15, 22)], [(4, 1), (8, 7), (10, 11), (16, 23)], [(5, 2), (9, 8), (11, 12), (17, 24)], [(10, 9), (18, 25)], [(11, 10), (19, 26)], [(14, 15)], [(15, 16)], [(8, 3), (14, 13), (16, 17), (22, 27)], [(9, 4), (15, 14), (17, 18), (23, 28)], [(10, 5), (16, 15), (18, 19), (24, 29)], [(17, 16)], [(18, 17)], [(13, 6), (21, 22)], [(14, 7), (22, 23)], [(15, 8), (21, 20), (23, 24), (27, 30)], [(16, 9), (22, 21), (24, 25), (28, 31)], [(17, 10), (23, 22), (25, 26), (29, 32)], [(18, 11), (24, 23)], [(19, 12), (25, 24)], [(22, 15), (28, 29)], [(23, 16)], [(24, 17), (28, 27)], [(27, 22), (31, 32)], [(28, 23)], [(29, 24), (31, 30)]]

/-- Frozen value of the corresponding component of the built board (checked against the pipeline below). -/
def crossPosL : List (K × K) :=
  [((⟨(⟨2, 1⟩ : Q), (⟨0, 1⟩ : Q)⟩ : K), (⟨(⟨0, 1⟩ : Q), (⟨0, 1⟩ : Q)⟩ : K)), ((⟨(⟨3, 1⟩ : Q), (⟨0, 1⟩ : Q)⟩ : K), (⟨(⟨0, 1⟩ : Q), (⟨0, 1⟩ : Q)⟩ : K)), ((⟨(⟨4, 1⟩ : Q), (⟨0, 1⟩ : Q)⟩ : K), (⟨(⟨0, 1⟩ : Q), (⟨0, 1⟩ : Q)⟩ : K)), ((⟨(⟨2, 1⟩ : Q), (⟨0, 1⟩ : Q)⟩ : K), (⟨(⟨1, 1⟩ : Q), (⟨0, 1⟩ : Q)⟩ : K)), ((⟨(⟨3, 1⟩ : Q), (⟨0, 1⟩ : Q)⟩ : K), (⟨(⟨1, 1⟩ : Q), (⟨0, 1⟩ : Q)⟩ : K)), ((⟨(⟨4, 1⟩ : Q), (⟨0, 1⟩ : Q)⟩ : K), (⟨(⟨1, 1⟩ : Q), (⟨0, 1⟩ : Q)⟩ : K)), ((⟨(⟨0, 1⟩ : Q), (⟨0, 1⟩ : Q)⟩ : K), (⟨(⟨2, 1⟩ : Q), (⟨0, 1⟩ : Q)⟩ : K)), ((⟨(⟨1, 1⟩ : Q), (⟨0, 1⟩ : Q)⟩ : K), (⟨(⟨2, 1⟩ : Q), (⟨0, 1⟩ : Q)⟩ : K)), ((⟨(⟨2, 1⟩ : Q), (⟨0, 1⟩ : Q)⟩ : K), (⟨(⟨2, 1⟩ : Q), (⟨0, 1⟩ : Q)⟩ : K)), ((⟨(⟨3, 1⟩ : Q), (⟨0, 1⟩ : Q)⟩ : K), (⟨(⟨2, 1⟩ : Q), (⟨0, 1⟩ : Q)⟩ : K)), ((⟨(⟨4, 1⟩ : Q), (⟨0, 1⟩ : Q)⟩ : K), (⟨(⟨2, 1⟩ : Q), (⟨0, 1⟩ : Q)⟩ : K)), ((⟨(⟨5, 1⟩ : Q), (⟨0, 1⟩ : Q)⟩ : K), (⟨(⟨2, 1⟩ : Q), (⟨0, 1⟩ : Q)⟩ : K)), ((⟨(⟨6, 1⟩ : Q), (⟨0, 1⟩ : Q)⟩ : K), (⟨(⟨2, 1⟩ : Q), (⟨0, 1⟩ : Q)⟩ : K)), ((⟨(⟨0, 1⟩ : Q), (⟨0, 1⟩ : Q)⟩ : K), (⟨(⟨3, 1⟩ : Q), (⟨0, 1⟩ : Q)⟩ : K)), ((⟨(⟨1, 1⟩ : Q), (⟨0, 1⟩ : Q)⟩ : K), (⟨(⟨3, 1⟩ : Q), (⟨0, 1⟩ : Q)⟩ : K)), ((⟨(⟨2, 1⟩ : Q), (⟨0, 1⟩ : Q)⟩ : K), (⟨(⟨3, 1⟩ : Q), (⟨0, 1⟩ : Q)⟩ : K)), ((⟨(⟨3, 1⟩ : Q), (⟨0, 1⟩ : Q)⟩ : K), (⟨(⟨3, 1⟩ : Q), (⟨0, 1⟩ : Q)⟩ : K)), ((⟨(⟨4, 1⟩ : Q), (⟨0, 1⟩ : Q)⟩ : K), (⟨(⟨3, 1⟩ : Q), (⟨0, 1⟩ : Q)⟩ : K)), ((⟨(⟨5, 1⟩ : Q), (⟨0, 1⟩ : Q)⟩ : K), (⟨(⟨3, 1⟩ : Q), (⟨0, 1⟩ : Q)⟩ : K)), ((⟨(⟨6, 1⟩ : Q), (⟨0, 1⟩ : Q)⟩ : K), (⟨(⟨3, 1⟩ : Q), (⟨0, 1⟩ : Q)⟩ : K)), ((⟨(⟨0, 1⟩ : Q), (⟨0, 1⟩ : Q)⟩ : K), (⟨(⟨4, 1⟩ : Q), (⟨0, 1⟩ : Q)⟩ : K)), ((⟨(⟨1, 1⟩ : Q), (⟨0, 1⟩ : Q)⟩ : K), (⟨(⟨4, 1⟩ : Q), (⟨0, 1⟩ : Q)⟩ : K)), ((⟨(⟨2, 1⟩ : Q), (⟨0, 1⟩ : Q)⟩ : K), (⟨(⟨4, 1⟩ : Q), (⟨0, 1⟩ : Q)⟩ : K)), ((⟨(⟨3, 1⟩ : Q), (⟨0, 1⟩ : Q)⟩ : K), (⟨(⟨4, 1⟩ : Q), (⟨0, 1⟩ : Q)⟩ : K)), ((⟨(⟨4, 1⟩ : Q), (⟨0, 1⟩ : Q)⟩ : K), (⟨(⟨4, 1⟩ : Q), (⟨0, 1⟩ : Q)⟩ : K)), ((⟨(⟨5, 1⟩ : Q), (⟨0, 1⟩ : Q)⟩ : K), (⟨(⟨4, 1⟩ : Q), (⟨0, 1⟩ : Q)⟩ : K)), ((⟨(⟨6, 1⟩ : Q), (⟨0, 1⟩ : Q)⟩ : K), (⟨(⟨4, 1⟩ : Q), (⟨0, 1⟩ : Q)⟩ : K)), ((⟨(⟨2, 1⟩ : Q), (⟨0, 1⟩ : Q)⟩ : K), (⟨(⟨5, 1⟩ : Q), (⟨0, 1⟩ : Q)⟩ : K)), ((⟨(⟨3, 1⟩ : Q), (⟨0, 1⟩ : Q)⟩ : K), (⟨(⟨5, 1⟩ : Q), (⟨0, 1⟩ : Q)⟩ : K)), ((⟨(⟨4, 1⟩ : Q), (⟨0, 1⟩ : Q)⟩ : K), (⟨(⟨5, 1⟩ : Q), (⟨0, 1⟩ : Q)⟩ : K)), ((⟨(⟨2, 1⟩ : Q), (⟨0, 1⟩ : Q)⟩ : K), (⟨(⟨6, 1⟩ : Q), (⟨0, 1⟩ : Q)⟩ : K)), ((⟨(⟨3, 1⟩ : Q), (⟨0, 1⟩ : Q)⟩ : K), (⟨(⟨6, 1⟩ : Q), (⟨0, 1⟩ : Q)⟩ : K)), ((⟨(⟨4, 1⟩ : Q), (⟨0, 1⟩ : Q)⟩ : K), (⟨(⟨6, 1⟩ : Q), (⟨0, 1⟩ : Q)⟩ : K))]

/-- Frozen value of the corresponding component of the built board (checked against the pipeline below). -/
def rhomCellsL : List Cell :=
  [(⟨(⟨(⟨0, 1⟩ : Q), (⟨0, 1⟩ : Q)⟩ : K), (⟨(⟨0, 1⟩ : Q), (⟨0, 1⟩ : Q)⟩ : K), true⟩ : Cell), (⟨(⟨(⟨1, 1⟩ : Q), (⟨0, 1⟩ : Q)⟩ : K), (⟨(⟨0, 1⟩ : Q), (⟨0, 1⟩ : Q)⟩ : K), true⟩ : Cell), (⟨(⟨(⟨2, 1⟩ : Q), (⟨0, 1⟩ : Q)⟩ : K), (⟨(⟨0, 1⟩ : Q), (⟨0, 1⟩ : Q)⟩ : K), true⟩ : Cell), (⟨(⟨(⟨3, 1⟩ : Q), (⟨0, 1⟩ : Q)⟩ : K), (⟨(⟨0, 1⟩ : Q), (⟨0, 1⟩ : Q)⟩ : K), true⟩ : Cell), (⟨(⟨(⟨4, 1⟩ : Q), (⟨0, 1⟩ : Q)⟩ : K), (⟨(⟨0, 1⟩ : Q), (⟨0, 1⟩ : Q)⟩ : K), true⟩ : Cell), (⟨(⟨(⟨1, 2⟩ : Q), (⟨0, 1⟩ : Q)⟩ : K), (⟨(⟨1732050807568877, 2000000000000000⟩ : Q), (⟨0, 1⟩ : Q)⟩ : K), true⟩ : Cell), (⟨(⟨(⟨3, 2⟩ : Q), (⟨0, 1⟩ : Q)⟩ : K), (⟨(⟨1732050807568877, 2000000000000000⟩ : Q), (⟨0, 1⟩ : Q)⟩ : K), true⟩ : Cell), (⟨(⟨(⟨5, 2⟩ : Q), (⟨0, 1⟩ : Q)⟩ : K), (⟨(⟨1732050807568877, 2000000000000000⟩ : Q), (⟨0, 1⟩ : Q)⟩ : K), true⟩ : Cell), (⟨(⟨(⟨7, 2⟩ : Q), (⟨0, 1⟩ : Q)⟩ : K), (⟨(⟨1732050807568877, 2000000000000000⟩ : Q), (⟨0, 1⟩ : Q)⟩ : K), true⟩ : Cell), (⟨(⟨(⟨9, 2⟩ : Q), (⟨0, 1⟩ : Q)⟩ : K), (⟨(⟨1732050807568877, 2000000000000000⟩ : Q), (⟨0, 1⟩ : Q)⟩ : K), true⟩ : Cell), (⟨(⟨(⟨1, 1⟩ : Q), (⟨0, 1⟩ : Q)⟩ : K), (⟨(⟨1732050807568877, 1000000000000000⟩ : Q), (⟨0, 1⟩ : Q)⟩ : K), true⟩ : Cell), (⟨(⟨(⟨2, 1⟩ : Q), (⟨0, 1⟩ : Q)⟩ : K), (⟨(⟨1732050807568877, 1000000000000000⟩ : Q), (⟨0, 1⟩ : Q)⟩ : K), true⟩ : Cell), (⟨(⟨(⟨3, 1⟩ : Q), (⟨0, 1⟩ : Q)⟩ : K), (⟨(⟨1732050807568877, 1000000000000000⟩ : Q), (⟨0, 1⟩ : Q)⟩ : K), true⟩ : Cell), (⟨(⟨(⟨4, 1⟩ : Q), (⟨0, 1⟩ : Q)⟩ : K), (⟨(⟨1732050807568877, 1000000000000000⟩ : Q), (⟨0, 1⟩ : Q)⟩ : K), true⟩ : Cell), (⟨(⟨(⟨5, 1⟩ : Q), (⟨0, 1⟩ : Q)⟩ : K), (⟨(⟨1732050807568877, 1000000000000000⟩ : Q), (⟨0, 1⟩ : Q)⟩ : K), true⟩ : Cell), (⟨(⟨(⟨3, 2⟩ : Q), (⟨0, 1⟩ : Q)⟩ : K), (⟨(⟨5196152422706631, 2000000000000000⟩ : Q), (⟨0, 1⟩ : Q)⟩ : K), true⟩ : Cell), (⟨(⟨(⟨5, 2⟩ : Q), (⟨0, 1⟩ : Q)⟩ : K), (⟨(⟨5196152422706631, 2000000000000000⟩ : Q), (⟨0, 1⟩ : Q)⟩ : K), true⟩ : Cell), (⟨(⟨(⟨7, 2⟩ : Q), (⟨0, 1⟩ : Q)⟩ : K), (⟨(⟨5196152422706631, 2000000000000000⟩ : Q), (⟨0, 1⟩ : Q)⟩ : K), true⟩ : Cell), (⟨(⟨(⟨9, 2⟩ : Q), (⟨0, 1⟩ : Q)⟩ : K), (⟨(⟨5196152422706631, 2000000000000000⟩ : Q), (⟨0, 1⟩ : Q)⟩ : K), true⟩ : Cell), (⟨(⟨(⟨11, 2⟩ : Q), (⟨0, 1⟩ : Q)⟩ : K), (⟨(⟨5196152422706631, 2000000000000000⟩ : Q), (⟨0, 1⟩ : Q)⟩ : K), true⟩ : Cell), (⟨(⟨(⟨2, 1⟩ : Q), (⟨0, 1⟩ : Q)⟩ : K), (⟨(⟨1732050807568877, 500000000000000⟩ : Q), (⟨0, 1⟩ : Q)⟩ : K), false⟩ : Cell), (⟨(⟨(⟨3, 1⟩ : Q), (⟨0, 1⟩ : Q)⟩ : K), (⟨(⟨1732050807568877, 500000000000000⟩ : Q), (⟨0, 1⟩ : Q)⟩ : K), true⟩ : Cell), (⟨(⟨(⟨4, 1⟩ : Q), (⟨0, 1⟩ : Q)⟩ : K), (⟨(⟨1732050807568877, 500000000000000⟩ : Q), (⟨0, 1⟩ : Q)⟩ : K), true⟩ : Cell), (⟨(⟨(⟨5, 1⟩ : Q), (⟨0, 1⟩ : Q)⟩ : K), (⟨(⟨1732050807568877, 500000000000000⟩ : Q), (⟨0, 1⟩ : Q)⟩ : K), true⟩ : Cell), (⟨(⟨(⟨6, 1⟩ : Q), (⟨0, 1⟩ : Q)⟩ : K), (⟨(⟨1732050807568877, 500000000000000⟩ : Q), (⟨0, 1⟩ : Q)⟩ : K), true⟩ : Cell)]

/-- Frozen value of the corresponding component of the built board (checked against the pipeline below). -/
def rhomEdgesL : List Edge :=
  [(0, 1, some (⟨0, 1⟩ : Q)), (0, 5, some (⟨60, 1⟩ : Q)), (1, 2, some (⟨0, 1⟩ : Q)), (1, 5, some (⟨120, 1⟩ : Q)), (1, 6, some (⟨60, 1⟩ : Q)), (2, 3, some (⟨0, 1⟩ : Q)), (2, 6, some (⟨120, 1⟩ : Q)), (2, 7, some (⟨60, 1⟩ : Q)), (3, 4, some (⟨0, 1⟩ : Q)), (3, 7, some (⟨120, 1⟩ : Q)), (3, 8, some (⟨60, 1⟩ : Q)), (4, 8, some (⟨120, 1⟩ : Q)), (4, 9, some (⟨60, 1⟩ : Q)), (5, 6, some (⟨0, 1⟩ : Q)), (5, 10, some (⟨60, 1⟩ : Q)), (6, 7, some (⟨0, 1⟩ : Q)), (6, 10, some (⟨120, 1⟩ : Q)), (6, 11, some (⟨60, 1⟩ : Q)), (7, 8, some (⟨0, 1⟩ : Q)), (7, 11, some (⟨120, 1⟩ : Q)), (7, 12, some (⟨60, 1⟩ : Q)), (8, 9, some (⟨0, 1⟩ : Q)), (8, 12, some (⟨120, 1⟩ : Q)), (8, 13, some (⟨60, 1⟩ : Q)), (9, 13, some (⟨120, 1⟩ : Q)), (9, 14, some (⟨60, 1⟩ : Q)), (10, 11, some (⟨0, 1⟩ : Q)), (10, 15, some (⟨60, 1⟩ : Q)), (11, 12, some (⟨0, 1⟩ : Q)), (11, 15, some (⟨120, 1⟩ : Q)), (11, 16, some (⟨60, 1⟩ : Q)), (12, 13, some (⟨0, 1⟩ : Q)), (12, 16, some (⟨120, 1⟩ : Q)), (12, 17, some (⟨60, 1⟩ : Q)), (13, 14, some (⟨0, 1⟩ : Q)), (13, 17, some (⟨120, 1⟩ : Q)), (13, 18, some (⟨60, 1⟩ : Q)), (14, 18, some (⟨120, 1⟩ : Q)), (14, 19, some (⟨60, 1⟩ : Q)), (15, 16, some (⟨0, 1⟩ : Q)), (15, 20, some (⟨60, 1⟩ : Q)), (16, 17, some (⟨0, 1⟩ : Q)), (16, 20, some (⟨120, 1⟩ : Q)), (16, 21, some (⟨60, 1⟩ : Q)), (17, 18, some (⟨0, 1⟩ : Q)), (17, 21, some (⟨120, 1⟩ : Q)), (17, 22, some (⟨60, 1⟩ : Q)), (18, 19, some (⟨0, 1⟩ : Q)), (18, 22, some (⟨120, 1⟩ : Q)), (18, 23, some (⟨60, 1⟩ : Q)), (19, 23, some (⟨120, 1⟩ : Q)), (19, 24, some (⟨60, 1⟩ : Q)), (20, 21, some (⟨0, 1⟩ : Q)), (21, 22, some (⟨0, 1⟩ : Q)), (22, 23, some (⟨0, 1⟩ : Q)), (23, 24, some (⟨0, 1⟩ : Q))]

/-- Frozen value of the corresponding component of the built board (checked against the pipeline below). -/
def rhomPairsL : List (List (Nat × Nat)) :=
  [[(1, 2), (5, 10)], [(2, 3), (6, 11)], [(1, 0), (3, 4), (6, 10), (7, 12)], [(2, 1), (7, 11), (8, 13)], [(3, 2), (8, 12), (9, 14)], [(6, 7), (10, 15)], [(7, 8), (11, 16)], [(6, 5), (8, 9), (11, 15), (12, 17)], [(7, 6), (12, 16), (13, 18)], [(8, 7), (13, 17), (14, 19)], [(5, 0), (6, 2), (11, 12), (15, 20)], [(6, 1), (7, 3), (12, 13), (16, 21)], [(7, 2), (8, 4), (11, 10), (13, 14), (16, 20), (17, 22)], [(8, 3), (12, 11), (17, 21), (18, 23)], [(9, 4), (13, 12), (18, 22), (19, 24)], [(10, 5), (11, 7), (16, 17)], [(11, 6), (12, 8), (17, 18)], [(12, 7), (13, 9), (16, 15), (18, 19)], [(13, 8), (17, 16)], [(14, 9), (18, 17)], [(15, 10), (16, 12), (21, 22)], [(16, 11), (17, 13), (22, 23)], [(17, 12), (18, 14), (21, 20), (23, 24)], [(18, 13), (22, 21)], [(19, 14), (23, 22)]]

/-- Frozen value of the corresponding component of the built board (checked against the pipeline below). -/
def rhomPosL : List (K × K) :=
  [((⟨(⟨0, 1⟩ : Q), (⟨0, 1⟩ : Q)⟩ : K), (⟨(⟨0, 1⟩ : Q), (⟨0, 1⟩ : Q)⟩ : K)), ((⟨(⟨1, 1⟩ : Q), (⟨0, 1⟩ : Q)⟩ : K), (⟨(⟨0, 1⟩ : Q), (⟨0, 1⟩ : Q)⟩ : K)), ((⟨(⟨2, 1⟩ : Q), (⟨0, 1⟩ : Q)⟩ : K), (⟨(⟨0, 1⟩ : Q), (⟨0, 1⟩ : Q)⟩ : K)), ((⟨(⟨3, 1⟩ : Q), (⟨0, 1⟩ : Q)⟩ : K), (⟨(⟨0, 1⟩ : Q), (⟨0, 1⟩ : Q)⟩ : K)), ((⟨(⟨4, 1⟩ : Q), (⟨0, 1⟩ : Q)⟩ : K), (⟨(⟨0, 1⟩ : Q), (⟨0, 1⟩ : Q)⟩ : K)), ((⟨(⟨1, 2⟩ : Q), (⟨0, 1⟩ : Q)⟩ : K), (⟨(⟨1732050807568877, 2000000000000000⟩ : Q), (⟨0, 1⟩ : Q)⟩ : K)), ((⟨(⟨3, 2⟩ : Q), (⟨0, 1⟩ : Q)⟩ : K), (⟨(⟨1732050807568877, 2000000000000000⟩ : Q), (⟨0, 1⟩ : Q)⟩ : K)), ((⟨(⟨5, 2⟩ : Q), (⟨0, 1⟩ : Q)⟩ : K), (⟨(⟨1732050807568877, 2000000000000000⟩ : Q), (⟨0, 1⟩ : Q)⟩ : K)), ((⟨(⟨7, 2⟩ : Q), (⟨0, 1⟩ : Q)⟩ : K), (⟨(⟨1732050807568877, 2000000000000000⟩ : Q), (⟨0, 1⟩ : Q)⟩ : K)), ((⟨(⟨9, 2⟩ : Q), (⟨0, 1⟩ : Q)⟩ : K), (⟨(⟨1732050807568877, 2000000000000000⟩ : Q), (⟨0, 1⟩ : Q)⟩ : K)), ((⟨(⟨1, 1⟩ : Q), (⟨0, 1⟩ : Q)⟩ : K), (⟨(⟨1732050807568877, 1000000000000000⟩ : Q), (⟨0, 1⟩ : Q)⟩ : K)), ((⟨(⟨2, 1⟩ : Q), (⟨0, 1⟩ : Q)⟩ : K), (⟨(⟨1732050807568877, 1000000000000000⟩ : Q), (⟨0, 1⟩ : Q)⟩ : K)), ((⟨(⟨3, 1⟩ : Q), (⟨0, 1⟩ : Q)⟩ : K), (⟨(⟨1732050807568877, 1000000000000000⟩ : Q), (⟨0, 1⟩ : Q)⟩ : K)), ((⟨(⟨4, 1⟩ : Q), (⟨0, 1⟩ : Q)⟩ : K), (⟨(⟨1732050807568877, 1000000000000000⟩ : Q), (⟨0, 1⟩ : Q)⟩ : K)), ((⟨(⟨5, 1⟩ : Q), (⟨0, 1⟩ : Q)⟩ : K), (⟨(⟨1732050807568877, 1000000000000000⟩ : Q), (⟨0, 1⟩ : Q)⟩ : K)), ((⟨(⟨3, 2⟩ : Q), (⟨0, 1⟩ : Q)⟩ : K), (⟨(⟨5196152422706631, 2000000000000000⟩ : Q), (⟨0, 1⟩ : Q)⟩ : K)), ((⟨(⟨5, 2⟩ : Q), (⟨0, 1⟩ : Q)⟩ : K), (⟨(⟨5196152422706631, 2000000000000000⟩ : Q), (⟨0, 1⟩ : Q)⟩ : K)), ((⟨(⟨7, 2⟩ : Q), (⟨0, 1⟩ : Q)⟩ : K), (⟨(⟨5196152422706631, 2000000000000000⟩ : Q), (⟨0, 1⟩ : Q)⟩ : K)), ((⟨(⟨9, 2⟩ : Q), (⟨0, 1⟩ : Q)⟩ : K), (⟨(⟨5196152422706631, 2000000000000000⟩ : Q), (⟨0, 1⟩ : Q)⟩ : K)), ((⟨(⟨11, 2⟩ : Q), (⟨0, 1⟩ : Q)⟩ : K), (⟨(⟨5196152422706631, 2000000000000000⟩ : Q), (⟨0, 1⟩ : Q)⟩ : K)), ((⟨(⟨2, 1⟩ : Q), (⟨0, 1⟩ : Q)⟩ : K), (⟨(⟨1732050807568877, 500000000000000⟩ : Q), (⟨0, 1⟩ : Q)⟩ : K)), ((⟨(⟨3, 1⟩ : Q), (⟨0, 1⟩ : Q)⟩ : K), (⟨(⟨1732050807568877, 500000000000000⟩ : Q), (⟨0, 1⟩ : Q)⟩ : K)), ((⟨(⟨4, 1⟩ : Q), (⟨0, 1⟩ : Q)⟩ : K), (⟨(⟨1732050807568877, 500000000000000⟩ : Q), (⟨0, 1⟩ : Q)⟩ : K)), ((⟨(⟨5, 1⟩ : Q), (⟨0, 1⟩ : Q)⟩ : K), (⟨(⟨1732050807568877, 500000000000000⟩ : Q), (⟨0, 1⟩ : Q)⟩ : K)), ((⟨(⟨6, 1⟩ : Q), (⟨0, 1⟩ : Q)⟩ : K), (⟨(⟨1732050807568877, 500000000000000⟩ : Q), (⟨0, 1⟩ : Q)⟩ : K))]

/-- The frozen triangle board. -/
def triB : PyState := ⟨triCellsL, triEdgesL, triPairsL, triPosL⟩

/-- The frozen cross board. -/
def crossB : PyState := ⟨crossCellsL, crossEdgesL, crossPairsL, crossPosL⟩

/-- The frozen rhombus board. -/
def rhomB : PyState := ⟨rhomCellsL, rhomEdgesL, rhomPairsL, rhomPosL⟩

/-- The triangle layout evaluates to its frozen cell list. -/
theorem triangleCells_lit : triangleCells = triCells0L := by decide

/-- The cross layout evaluates to its frozen cell list. -/
theorem crossCells_lit : crossCells = crossCells0L := by decide

/-- The rhombus layout evaluates to its frozen cell list. -/
theorem rhombusCells_lit : rhombusCells = rhomCells0L := by decide

/-- If `findEdge` locates the edge between `u` and `v`, then `v`, paired
with that edge's angle attribute, appears in the adjacency view of `u`. -/
theorem findEdge_mem_adjOf (es : List Edge) (u v : Nat) (e : Edge)
    (h : findEdge es u v = some e) : (v, e.2.2) ∈ adjOf es u := by
  have hmem : e ∈ es := List.mem_of_find?_eq_some h
  have hpred := List.find?_some h
  rw [Bool.or_eq_true, Bool.and_eq_true, Bool.and_eq_true] at hpred
  unfold adjOf
  rcases hpred with ⟨h1, h2⟩ | ⟨h1, h2⟩
  · replace h1 := of_decide_eq_true h1
    replace h2 := of_decide_eq_true h2
    exact List.mem_filterMap.mpr ⟨e, hmem, by rw [if_pos h1, h2]⟩
  · replace h1 := of_decide_eq_true h1
    replace h2 := of_decide_eq_true h2
    by_cases h3 : e.1 = u
    · exact List.mem_filterMap.mpr ⟨e, hmem, by rw [if_pos h3, h2, h3.symm.trans h1]⟩
    · exact List.mem_filterMap.mpr ⟨e, hmem, by rw [if_neg h3, if_pos h2, h1]⟩

/-- `findEdge` is symmetric in its two node arguments. -/
theorem findEdge_symm (es : List Edge) (u v : Nat) :
    findEdge es u v = findEdge es v u := by
  unfold findEdge
  congr 1
  funext e
  exact Bool.or_comm _ _

/-- Indexing a mapped range at an in-range position yields the mapped
value. -/
theorem getD_map_range {α : Type} (n c : Nat) (hc : c < n) (f : Nat → α)
    (d : α) : ((List.range n).map f).getD c d = f c := by
  rw [List.getD_eq_getElem?_getD, List.getElem?_map, List.getElem?_range hc]
  rfl

/-- Completeness of `findPairs`, symbolically: whenever `n1` appears in
the adjacency view of `c` and `n2` in that of `n1` with the same angle
attribute and `n2 ≠ c`, the pair `(n1, n2)` is recorded under key `c`. -/
theorem mem_findPairs (es : List Edge) (n c n1 n2 : Nat) (a b : Option Q)
    (hc : c < n) (m1 : (n1, a) ∈ adjOf es c) (m2 : (n2, b) ∈ adjOf es n1)
    (hne : n2 ≠ c) (hab : a = b) :
    (n1, n2) ∈ pairsAt (findPairs es n) c := by
  unfold pairsAt findPairs
  rw [getD_map_range n c hc]
  refine List.mem_flatMap.mpr ⟨(n1, a), m1, ?_⟩
  refine List.mem_filterMap.mpr ⟨(n2, b), m2, ?_⟩
  rw [if_pos ⟨hne, hab⟩]

/-- The triangle pipeline produces exactly the frozen triangle board. -/
theorem triangle_built : Solitaire.triangle = Except.ok triB := by decide

/-- The cross pipeline produces exactly the frozen cross board. -/
theorem cross_built : Solitaire.cross = Except.ok crossB := by decide

/-- The rhombus pipeline produces exactly the frozen rhombus board. -/
theorem rhombus_built : Solitaire.rhombus = Except.ok rhomB := by decide

set_option maxHeartbeats 4000000

set_option maxRecDepth 100000

set_option synthInstance.maxSize 3000

/-- The frozen triangle board's jump-pair index is `findPairs` of its own
edge list (projected from the pipeline equation, no recomputation). -/
theorem triB_pairs_eq : triB.pairs = findPairs triB.edges triB.cells.length := by
  have h0 : Solitaire.triangle =
      Except.ok (stepPairs (stepPos (stepEdges (stage0 triangleCells 4)))) := rfl
  have hs := Except.ok.inj (h0.symm.trans triangle_built)
  rw [← hs]; exact rfl

/-- The frozen cross board's jump-pair index is `findPairs` of its own
edge list. -/
theorem crossB_pairs_eq : crossB.pairs = findPairs crossB.edges crossB.cells.length := by
  have h0 : Solitaire.cross =
      Except.ok (stepPairs (stepPos (stepEdges (stage0 crossCells 16)))) := rfl
  have hs := Except.ok.inj (h0.symm.trans cross_built)
  rw [← hs]; exact rfl

/-- The frozen rhombus board's jump-pair index is `findPairs` of its own
edge list. -/
theorem rhomB_pairs_eq : rhomB.pairs = findPairs rhomB.edges rhomB.cells.length := by
  have h0 : Solitaire.rhombus =
      Except.ok (stepPairs (stepPos (stepEdges (stage0 rhombusCells 20)))) := rfl
  have hs := Except.ok.inj (h0.symm.trans rhombus_built)
  rw [← hs]; exact rfl

/-- No jump-pair entry of the frozen triangle board contains duplicates. -/
theorem triB_pairs_nodup :
    ∀ c < triB.cells.length, (pairsAt triB.pairs c).Nodup := by decide

/-- No jump-pair entry of the frozen cross board contains duplicates. -/
theorem crossB_pairs_nodup :
    ∀ c < crossB.cells.length, (pairsAt crossB.pairs c).Nodup := by decide

/-- No jump-pair entry of the frozen rhombus board contains duplicates. -/
theorem rhomB_pairs_nodup :
    ∀ c < rhomB.cells.length, (pairsAt rhomB.pairs c).Nodup := by decide

/-- In a duplicate-free list, every member is counted exactly once. -/
theorem count_one_of_nodup_mem {α : Type} [BEq α] [LawfulBEq α] {l : List α}
    {a : α} (hn : l.Nodup) (hm : a ∈ l) : l.count a = 1 := by
  induction l with
  | nil => cases hm
  | cons x t ih =>
    obtain ⟨hx, ht⟩ := List.nodup_cons.mp hn
    rw [List.count_cons]
    rcases List.mem_cons.mp hm with rfl | hmt
    · rw [List.count_eq_zero.mpr hx, if_pos (beq_self_eq_true a)]
    · have hax : a ≠ x := fun hax2 => hx (hax2 ▸ hmt)
      rw [ih ht hmt, if_neg (by simpa using Ne.symm hax)]

/-- Jump-pair completeness holds for any board state whose pair index is
`findPairs` of its edge list with duplicate-free entries. -/
theorem jumpComplete_of_eq_nodup (B : PyState)
    (hp : B.pairs = findPairs B.edges B.cells.length)
    (hn : ∀ c < B.cells.length, (pairsAt B.pairs c).Nodup) :
    jumpComplete B.cells.length B.edges B.pairs := by
  intro c hc n1 hn1 n2 hn2 hcond
  obtain ⟨hne, he1, he2, hang⟩ := hcond
  unfold hasEdge at he1 he2
  obtain ⟨e1, hf1⟩ := Option.isSome_iff_exists.mp he1
  obtain ⟨e2, hf2⟩ := Option.isSome_iff_exists.mp he2
  unfold angleAttr at hang
  rw [hf1, hf2] at hang
  simp only [Option.map_some'] at hang
  have hangv := Option.some.inj hang
  have m1 := findEdge_mem_adjOf B.edges c n1 e1 hf1
  have m2 := findEdge_mem_adjOf B.edges n1 n2 e2 hf2
  have m1r := findEdge_mem_adjOf B.edges n1 c e1 ((findEdge_symm B.edges n1 c).trans hf1)
  have m2r := findEdge_mem_adjOf B.edges n2 n1 e2 ((findEdge_symm B.edges n2 n1).trans hf2)
  have mem1 := mem_findPairs B.edges B.cells.length c n1 n2 e1.2.2 e2.2.2 hc m1 m2 hne hangv
  have mem2 := mem_findPairs B.edges B.cells.length n2 n1 c e2.2.2 e1.2.2 hn2 m2r m1r
    (Ne.symm hne) hangv.symm
  rw [← hp] at mem1 mem2
  exact ⟨count_one_of_nodup_mem (hn c hc) mem1,
    count_one_of_nodup_mem (hn n2 hn2) mem2⟩

/-- C1: For every board constructed by any of the three templates
(triangle, cross, rhombus) and for every entry `(n1, n2)` recorded in the
jump-pair index under key `c`, the cell `n1` is adjacent to `c`, `n2` is
adjacent to `n1`, `n2` is not equal to `c`, and the direction angles
stored on edge `(c, n1)` and edge `(n1, n2)` are equal. -/
theorem c1_jump_index_sound :
    (∀ s, Solitaire.triangle = Except.ok s → jumpSound s.edges s.pairs) ∧
      (∀ s, Solitaire.cross = Except.ok s → jumpSound s.edges s.pairs) ∧
      (∀ s, Solitaire.rhombus = Except.ok s → jumpSound s.edges s.pairs) := by
  refine ⟨fun s h => ?_, fun s h => ?_, fun s h => ?_⟩
  · rw [triangle_built] at h; cases Except.ok.inj h; unfold jumpSound; decide
  · rw [cross_built] at h; cases Except.ok.inj h; unfold jumpSound; decide
  · rw [rhombus_built] at h; cases Except.ok.inj h; unfold jumpSound; decide

/-- Witness for C1: the triangle board's entry `(1, 3)` under key 0 is
geometrically sound. -/
theorem c1_jump_index_sound_witness :
    hasEdge triB.edges 0 1 = true ∧ hasEdge triB.edges 1 3 = true ∧ 3 ≠ 0 ∧
      angleAttr triB.edges 0 1 = angleAttr triB.edges 1 3 :=
  c1_jump_index_sound.1 triB triangle_built 0 (by decide) (1, 3) (by decide)

/-- C2: For every board constructed by any of the three templates, the
jump-pair index is complete: every triple `(c, n1, n2)` with `n2 ≠ c`,
both edges present and equal direction angles has `(n1, n2)` exactly once
in the entry keyed by `c`, and `(n1, c)` exactly once in the entry keyed
by `n2`. -/
theorem c2_jump_index_complete :
    (∀ s, Solitaire.triangle = Except.ok s →
        jumpComplete s.cells.length s.edges s.pairs) ∧
      (∀ s, Solitaire.cross = Except.ok s →
        jumpComplete s.cells.length s.edges s.pairs) ∧
      (∀ s, Solitaire.rhombus = Except.ok s →
        jumpComplete s.cells.length s.edges s.pairs) := by
  refine ⟨fun s h => ?_, fun s h => ?_, fun s h => ?_⟩
  · rw [triangle_built] at h; cases Except.ok.inj h
    exact jumpComplete_of_eq_nodup triB triB_pairs_eq triB_pairs_nodup
  · rw [cross_built] at h; cases Except.ok.inj h
    exact jumpComplete_of_eq_nodup crossB crossB_pairs_eq crossB_pairs_nodup
  · rw [rhombus_built] at h; cases Except.ok.inj h
    exact jumpComplete_of_eq_nodup rhomB rhomB_pairs_eq rhomB_pairs_nodup

/-- Witness for C2: the colinear triple `(0, 1, 3)` of the triangle board
is recorded exactly once under key 0 and once (reversed) under key 3. -/
theorem c2_jump_index_complete_witness :
    (pairsAt triB.pairs 0).count (1, 3) = 1 ∧ (pairsAt triB.pairs 3).count (1, 0) = 1 :=
  c2_jump_index_complete.1 triB triangle_built 0 (by decide) 1 (by decide) 3
    (by decide) (by decide)

/-- C3: For every board constructed by any of the three templates, an edge
between two distinct cells exists if and only if the exact
(pre-float-evaluation) squared Euclidean distance between the two cells'
construction coordinates equals exactly 1; no edge exists at any other
distance. -/
theorem c3_edge_iff_unit_distance :
    (∀ s, Solitaire.triangle = Except.ok s → edgesIffUnit triangleCells s.edges) ∧
      (∀ s, Solitaire.cross = Except.ok s → edgesIffUnit crossCells s.edges) ∧
      (∀ s, Solitaire.rhombus = Except.ok s → edgesIffUnit rhombusCells s.edges) := by
  refine ⟨fun s h => ?_, fun s h => ?_, fun s h => ?_⟩
  · rw [triangle_built] at h; cases Except.ok.inj h
    rw [triangleCells_lit]; unfold edgesIffUnit; decide
  · rw [cross_built] at h; cases Except.ok.inj h
    rw [crossCells_lit]; unfold edgesIffUnit; decide
  · rw [rhombus_built] at h; cases Except.ok.inj h
    rw [rhombusCells_lit]; unfold edgesIffUnit; decide

/-- Witness for C3: on the triangle board, cells 0 and 1 are adjacent
exactly when their construction squared distance is 1. -/
theorem c3_edge_iff_unit_distance_witness :
    hasEdge triB.edges 0 1 = true ↔ distSq triangleCells 0 1 = 1 :=
  (c3_edge_iff_unit_distance.1 triB triangle_built).1 0 (by decide) 1 (by decide)
    (by decide)

/-- C4: For every edge created by the adjacency calculator, its direction
angle equals `atan2(dy, dx)` in degrees folded into `[0, 180)` (computed
as `(angle + 360) % 180`), so that the reversed coordinate difference
(a line angle differing by 180 degrees) yields the same stored value. -/
theorem c4_angles_folded :
    (∀ s, Solitaire.triangle = Except.ok s → anglesWellFormed triangleCells s.edges) ∧
      (∀ s, Solitaire.cross = Except.ok s → anglesWellFormed crossCells s.edges) ∧
      (∀ s, Solitaire.rhombus = Except.ok s → anglesWellFormed rhombusCells s.edges) := by
  refine ⟨fun s h => ?_, fun s h => ?_, fun s h => ?_⟩
  · rw [triangle_built] at h; cases Except.ok.inj h
    rw [triangleCells_lit]; unfold anglesWellFormed; decide
  · rw [cross_built] at h; cases Except.ok.inj h
    rw [crossCells_lit]; unfold anglesWellFormed; decide
  · rw [rhombus_built] at h; cases Except.ok.inj h
    rw [rhombusCells_lit]; unfold anglesWellFormed; decide

/-- Witness for C4: the first triangle edge `(0, 1)` stores the folded
`atan2` angle of its coordinate difference, equal in both directions and
inside `[0, 180)`. -/
theorem c4_angles_folded_witness :
    some 60 = foldAngle ((cellAt triangleCells 0).y - (cellAt triangleCells 1).y)
        ((cellAt triangleCells 0).x - (cellAt triangleCells 1).x) ∧
      some 60 = foldAngle ((cellAt triangleCells 1).y - (cellAt triangleCells 0).y)
        ((cellAt triangleCells 1).x - (cellAt triangleCells 0).x) ∧
      angleInRange (some 60) = true :=
  c4_angles_folded.1 triB triangle_built (0, 1, some 60) (by decide)

/-- C5: The triangle template produces a board with exactly 15 cells, and
after construction with the default starting hole 4, cell 4 has no peg
while every one of the other 14 cells has a peg. -/
theorem c5_triangle_starting_peg :
    ∀ s, Solitaire.triangle = Except.ok s → startingPegRemoved s 4 15 := by
  intro s h; rw [triangle_built] at h; cases Except.ok.inj h
  unfold startingPegRemoved; decide

/-- Witness for C5: on the built triangle board, cell 4 is empty and
cell 0 keeps its peg. -/
theorem c5_triangle_starting_peg_witness :
    (cellAt triB.cells 4).peg = false ∧ (cellAt triB.cells 0).peg = true :=
  ⟨(c5_triangle_starting_peg triB triangle_built).2.1,
    (c5_triangle_starting_peg triB triangle_built).2.2 0 (by decide) (by decide)⟩

/-- C6: The cross template with its default parameters produces a board
with exactly 33 cells, formed as the union of three rectangular blocks of
cells (top arm, middle band, bottom arm). -/
theorem c6_cross_blocks :
    (∀ s, Solitaire.cross = Except.ok s → s.cells.length = 33) ∧
      crossCells.map (fun c => (c.x, c.y)) = crossBlocksSpec ∧
      (crossCells.map (fun c => (c.x, c.y))).Nodup := by
  refine ⟨fun s h => ?_, by decide, by decide⟩
  rw [cross_built] at h; cases Except.ok.inj h; decide

/-- Witness for C6: the built cross board has 33 cells. -/
theorem c6_cross_blocks_witness : crossB.cells.length = 33 :=
  c6_cross_blocks.1 crossB cross_built

/-- C7: The rhombus template produces a board with exactly 25 cells on a
sheared 60-degree lattice, and every cell off the boundary of the 5 by 5
rhombus has exactly 6 neighbors in the adjacency graph. -/
theorem c7_rhombus_interior_degree :
    ∀ s, Solitaire.rhombus = Except.ok s →
      s.cells.length = 25 ∧ interiorDegreeSix s.edges := by
  intro s h; rw [rhombus_built] at h; cases Except.ok.inj h
  exact ⟨by decide, by unfold interiorDegreeSix; decide⟩

/-- Witness for C7: the built rhombus board's interior cell `(1, 1)`
(node 6) has six neighbors. -/
theorem c7_rhombus_interior_degree_witness : degreeOf rhomB.edges 6 = 6 :=
  (c7_rhombus_interior_degree rhomB rhombus_built).2 1 (by decide) 1 (by decide)
    (by decide) (by decide) (by decide) (by decide)

/-- C8: For every template, constructing a board with a starting-hole
identity that is out of range (node identities are `0 .. #cells - 1`)
fails with the invalid-starting-hole error, and no board is produced. -/
theorem c8_invalid_starting_hole :
    ∀ hole : Nat,
      (triangleCells.length ≤ hole →
        buildBoard triangleCells hole = Except.error Err.invalidStartingHole) ∧
      (crossCells.length ≤ hole →
        buildBoard crossCells hole = Except.error Err.invalidStartingHole) ∧
      (rhombusCells.length ≤ hole →
        buildBoard rhombusCells hole = Except.error Err.invalidStartingHole) := by
  intro hole
  refine ⟨fun h => ?_, fun h => ?_, fun h => ?_⟩ <;>
    · unfold buildBoard; exact if_neg (Nat.not_lt.mpr h)

/-- Witness for C8: hole 100 is out of range for all three templates and
each construction fails. -/
theorem c8_invalid_starting_hole_witness :
    buildBoard triangleCells 100 = Except.error Err.invalidStartingHole ∧
      buildBoard crossCells 100 = Except.error Err.invalidStartingHole ∧
      buildBoard rhombusCells 100 = Except.error Err.invalidStartingHole :=
  ⟨(c8_invalid_starting_hole 100).1 (by decide),
    (c8_invalid_starting_hole 100).2.1 (by decide),
    (c8_invalid_starting_hole 100).2.2 (by decide)⟩

/-- C9 counterexample: the claim "coordinates are never mutated after the
adjacency computation has run" fails at triangle cell 1: the `_calc_pos`
stage, which runs after `_calc_edges`, replaces its stored `y` coordinate
(exactly `-sqrt(3)/2`) by a rational float approximation. -/
theorem c9_coords_mutated_counterexample :
    (cellAt (stepPos (stepEdges (stage0 triangleCells 4))).cells 1).y ≠
      (cellAt (stepEdges (stage0 triangleCells 4)).cells 1).y := by
  rw [triangleCells_lit]; decide

/-- C9 amended: coordinates are set at layout generation and are left
unchanged by the adjacency stage and by the jump-pair stage; the only
later mutation is the display evaluation `_calc_pos` (run after
adjacency), which replaces every stored coordinate by its float
evaluation, so each constructed board's stored cells are exactly the
float evaluations of the construction cells while its edges were computed
from the unmutated construction coordinates. -/
theorem c9_coords_mutated_once_amended :
    (∀ s : PyState, (stepEdges s).cells = s.cells) ∧
      (∀ s : PyState, (stepPairs s).cells = s.cells) ∧
      (∀ s : PyState, (stepPos s).cells = s.cells.map evalfCell) ∧
      (∀ s, Solitaire.triangle = Except.ok s →
        s.cells = (stage0 triangleCells 4).cells.map evalfCell ∧
          s.edges = calcEdges (stage0 triangleCells 4).cells) ∧
      (∀ s, Solitaire.cross = Except.ok s →
        s.cells = (stage0 crossCells 16).cells.map evalfCell ∧
          s.edges = calcEdges (stage0 crossCells 16).cells) ∧
      (∀ s, Solitaire.rhombus = Except.ok s →
        s.cells = (stage0 rhombusCells 20).cells.map evalfCell ∧
          s.edges = calcEdges (stage0 rhombusCells 20).cells) := by
  refine ⟨fun s => rfl, fun s => rfl, fun s => rfl, fun s h => ?_, fun s h => ?_,
    fun s h => ?_⟩
  · rw [triangle_built] at h; cases Except.ok.inj h
    have h0 : Solitaire.triangle =
        Except.ok (stepPairs (stepPos (stepEdges (stage0 triangleCells 4)))) := rfl
    have hs := Except.ok.inj (h0.symm.trans triangle_built)
    rw [← hs]
    exact ⟨rfl, rfl⟩
  · rw [cross_built] at h; cases Except.ok.inj h
    have h0 : Solitaire.cross =
        Except.ok (stepPairs (stepPos (stepEdges (stage0 crossCells 16)))) := rfl
    have hs := Except.ok.inj (h0.symm.trans cross_built)
    rw [← hs]
    exact ⟨rfl, rfl⟩
  · rw [rhombus_built] at h; cases Except.ok.inj h
    have h0 : Solitaire.rhombus =
        Except.ok (stepPairs (stepPos (stepEdges (stage0 rhombusCells 20)))) := rfl
    have hs := Except.ok.inj (h0.symm.trans rhombus_built)
    rw [← hs]
    exact ⟨rfl, rfl⟩

/-- Witness for the amended C9 at the triangle board: its stored cells are
the float evaluations of the construction cells. -/
theorem c9_coords_mutated_once_amended_witness :
    triB.cells = (stage0 triangleCells 4).cells.map evalfCell :=
  (c9_coords_mutated_once_amended.2.2.2.1 triB triangle_built).1

/-- C10: For every board constructed by any of the three templates and
every jump-pair entry `(n1, n2)` recorded under cell `c`, the landing
cell `n2` is distinct from both `c` and `n1`, and the exact squared
Euclidean distance between the construction coordinates of `c` and `n2`
equals exactly 4. -/
theorem c10_landing_distance :
    (∀ s, Solitaire.triangle = Except.ok s → jumpLanding triangleCells s.pairs) ∧
      (∀ s, Solitaire.cross = Except.ok s → jumpLanding crossCells s.pairs) ∧
      (∀ s, Solitaire.rhombus = Except.ok s → jumpLanding rhombusCells s.pairs) := by
  refine ⟨fun s h => ?_, fun s h => ?_, fun s h => ?_⟩
  · rw [triangle_built] at h; cases Except.ok.inj h
    rw [triangleCells_lit]; unfold jumpLanding; decide
  · rw [cross_built] at h; cases Except.ok.inj h
    rw [crossCells_lit]; unfold jumpLanding; decide
  · rw [rhombus_built] at h; cases Except.ok.inj h
    rw [rhombusCells_lit]; unfold jumpLanding; decide

/-- Witness for C10: the triangle board's jump from cell 0 over cell 1
lands on cell 3, two units away. -/
theorem c10_landing_distance_witness :
    3 ≠ 0 ∧ 3 ≠ 1 ∧ distSq triangleCells 0 3 = 4 :=
  c10_landing_distance.1 triB triangle_built 0 (by decide) (1, 3) (by decide)
